import Mathlib

/-!
Shallow embedding of the talent-success-agent orchestration core
(src/src/ts_agent and src/src/utils) and proofs about its stage functions.

External collaborators (the structured-output LLM, the MCP tool gateway,
the Intercom backend, the validator endpoint and Python's json.loads) are
modelled as oracle parameters; everything else is translated directly from
the Python sources.
-/

namespace TSAgent

/-- JSON-like values: used for tool parameters, tool results and raw
validator verdicts (Python `Any` in dicts). Numbers are modelled as `Int`;
no claim depends on float arithmetic. -/
inductive Value where
  | null
  | bool (b : Bool)
  | str (s : String)
  | num (n : Int)
  | list (items : List Value)
  | obj (fields : List (String × Value))
deriving Repr, Inhabited

/-- Python truthiness of a value. -/
def Value.truthy : Value → Bool
  | .null => false
  | .bool b => b
  | .str s => s ≠ ""
  | .num n => n ≠ 0
  | .list items => !items.isEmpty
  | .obj fields => !fields.isEmpty

/-- `d.get(k)` on an association list (Python dict preserving insertion order). -/
def alistGet (l : List (String × Value)) (k : String) : Option Value :=
  match l with
  | [] => none
  | (a, b) :: t => if a = k then some b else alistGet t k

/-- `d[k] = v` on an association list: replace in place or append. -/
def alistSet (l : List (String × Value)) (k : String) (v : Value) : List (String × Value) :=
  match l with
  | [] => [(k, v)]
  | (a, b) :: t => if a = k then (a, v) :: t else (a, b) :: alistSet t k v

/-- `k in d`. -/
def alistMem (l : List (String × Value)) (k : String) : Bool :=
  (alistGet l k).isSome

/-- Python truthiness of `state.get(key)` for an optional string
(missing key and `None` are collapsed to `none`; `""` is falsy). -/
def strOptTruthy : Option String → Bool
  | some t => t ≠ ""
  | none => false

/-- `needle in haystack` on strings (Python substring test). -/
def containsSub (haystack needle : String) : Bool :=
  (haystack.splitOn needle).length > 1

/-- Exceptions raised by the embedded Python code, tagged by their class. -/
inductive PyError where
  | attributeError (msg : String)
  | valueError (msg : String)
  | jsonSchemaValidationError (msg : String)
  | pydanticValidationError (msg : String)
  | otherError (msg : String)
deriving Repr, DecidableEq

/-- `str(e)`. -/
def PyError.str : PyError → String
  | .attributeError m => m
  | .valueError m => m
  | .jsonSchemaValidationError m => m
  | .pydanticValidationError m => m
  | .otherError m => m

/-- The `ToolType` enum from src/src/ts_agent/types.py: it defines exactly
the members GATHER = "gather" and ACTION = "action". -/
def ToolType.members : List (String × String) :=
  [("GATHER", "gather"), ("ACTION", "action")]

/-- `ToolType.<NAME>.value`: attribute lookup on the enum. `none` models the
AttributeError Python raises for a member the enum does not define. -/
def ToolType.attr (name : String) : Option String :=
  ToolType.members.lookup name

/-- A tool's `inputSchema` dict: `properties` maps parameter names to their
(JSON) schemas, `required` lists required parameter names. The empty schema
stands for a missing `inputSchema` key (Python default `{}`). -/
structure InputSchema where
  properties : List (String × Value)
  required : List String
deriving Repr

/-- Python truthiness of the `input_schema` dict. -/
def InputSchema.truthy (is_ : InputSchema) : Bool :=
  !is_.properties.isEmpty || !is_.required.isEmpty

/-- `sanitize_tool_params` from src/src/utils/sanitization.py.

Line 48 evaluates `ToolType.INTERNAL_ACTION.value` and
`ToolType.EXTERNAL_ACTION.value` before anything else observable; since the
enum defines neither member, the attribute lookup raises AttributeError.
The rest of the function (injection of trusted values over the schema's
properties, then the required-parameter check) is translated after that
lookup, exactly as it appears in the source. The `dry_run` callable
injection (lines 55-56) sits inside the dead `is_action_tool` branch and
reads an environment variable; it is modelled as injecting the `dry_run`
entry of the injection map unchanged. -/
def sanitize_tool_params (params : List (String × Value)) (input_schema : InputSchema)
    (tool_name : String) (injection_map : List (String × Value))
    (tool_type : Option String := none) : Except PyError (List (String × Value)) :=
  match ToolType.attr "INTERNAL_ACTION", ToolType.attr "EXTERNAL_ACTION" with
  | some internalVal, some externalVal =>
    let _is_action_tool := tool_type = some internalVal ∨ tool_type = some externalVal
    let sanitized := input_schema.properties.foldl
      (fun acc p =>
        match alistGet injection_map p.fst with
        | some v =>
          -- line 67-68: a non-None conversation_id is coerced with str(); the
          -- injection maps built by the callers already carry strings, so the
          -- coercion is the identity here.
          alistSet acc p.fst v
        | none => acc)
      params
    let missing_params := input_schema.required.filter
      (fun rp => match alistGet sanitized rp with
        | none => true
        | some .null => true
        | some _ => false)
    if missing_params ≠ [] then
      .error (.valueError ("Missing required parameters for " ++ tool_name ++ ": " ++
        String.intercalate ", " missing_params))
    else
      .ok sanitized
  | _, _ => .error (.attributeError "INTERNAL_ACTION")

/-- A tool descriptor from `available_tools` (MCP `list_tools` shape):
name, description and `inputSchema`. An empty `inputSchema` models the
missing key (Python default `{}`). -/
structure AvailableTool where
  name : String
  description : String
  inputSchema : InputSchema
deriving Repr

/-- One entry of a hop's planned `action_tool_calls` (`tool_name`,
`parameters`, `reasoning`), possibly enriched with the full `tool_schema`
dict by `_enrich_action_tools_with_schemas` and possibly carrying a
`tool_type` key (the plan entries never set one, so Coverage falls back to
`ToolType.ACTION.value`). -/
structure PlannedTool where
  tool_name : String
  parameters : List (String × Value)
  reasoning : String
  tool_schema : Option AvailableTool := none
  tool_type : Option String := none
deriving Repr

/-- `ActionDecision` from src/src/ts_agent/nodes/coverage/schemas.py. -/
structure ActionDecision where
  action_tool_name : String
  reasoning : String
  parameters : List (String × Value)
deriving Repr

/-- `CoverageResponse` from src/src/ts_agent/nodes/coverage/schemas.py.
`missing_data` entries carry (gap_type, description); the float
`confidence` field plays no role in control flow and is not modelled. -/
structure CoverageResponse where
  data_sufficient : Bool
  missing_data : List (String × String)
  reasoning : String
  next_action : String
  escalation_reason : Option String := none
  action_decision : Option ActionDecision := none
deriving Repr

/-- `CoverageData` (coverage/schemas.py): the dict stored into the hop by
coverage.py lines 236-240, holding exactly the keys `coverage_response`
and `next_node`. -/
structure CoverageData where
  coverage_response : CoverageResponse
  next_node : String
deriving Repr

/-- Python `dict.get` for a string-valued key on the stored coverage dict.
The writer (coverage.py lines 236-240) stores only the keys
`coverage_response` and `next_node`, so any other string key yields `none`. -/
def CoverageData.getStr (cd : CoverageData) (key : String) : Option String :=
  if key = "next_node" then some cd.next_node else none

/-- The `plan` sub-dict of a hop, as read by Coverage: `reasoning` and
`action_tool_calls`. (Gather-side plan fields are not read by the
embedded stages.) -/
structure PlanData where
  reasoning : Option String
  action_tool_calls : List PlannedTool
deriving Repr

/-- One hop record (`HopData` in types.py). The `gather` sub-record is not
read by any embedded stage and is omitted. -/
structure HopData where
  hop_number : Option Nat
  plan : Option PlanData := none
  coverage : Option CoverageData := none
deriving Repr

/-- One record of the state-level `actions` list, as written by
action_node (action.py lines 115-133 and 173-191). The wall-clock fields
(`execution_time_ms`, `timestamp`) and the nested `tool_result` dump are
not modelled; `requires_review` stores the truthiness of the value the
review policy returned. -/
structure ActionData where
  tool_name : String
  success : Bool
  error : Option String
  audit_notes : String
  requires_review : Bool
  hop_number : Nat
  execution_status : String
deriving Repr, DecidableEq

/-- The state-level `draft` dict written by draft_node. The schemas file
for the draft node is not among the provided sources; the fields here are
the ones draft.py writes (response, response_type as its string value,
escalation_reason) plus an `error` entry that models
`draft_data.get("error")`: draft.py never passes an error value to
`DraftData`, so it is always `none` after draft_node runs. Wall-clock
fields are not modelled. -/
structure DraftData where
  response : String
  response_type : String
  escalation_reason : Option String := none
  error : Option String := none
deriving Repr, DecidableEq

/-- One record of the state-level `validate` list (`ValidateData` in
validate/schemas.py). -/
structure ValidateData where
  validation_response : Option Value
  overall_passed : Bool
  validation_note_added : Bool
  escalation_reason : Option String
  next_action : String
  retry_count : Nat
deriving Repr

/-- `ResponseData` (response node delivery record); the wall-clock
`delivery_time_ms` is not modelled. -/
structure ResponseData where
  success : Bool
  intercom_delivered : Bool
  error : Option String
deriving Repr, DecidableEq

/-- The state-level `escalate` dict. The schemas file for the escalate
node is not among the provided sources; the fields are the ones
escalate.py passes to `EscalateData` (timestamp and the context dict are
not modelled). -/
structure EscalateData where
  escalation_reason : String
  escalation_source : String
  note_added : Bool
  note_content : Option String
deriving Repr, DecidableEq

/-- A conversation message (role, content); attachments only affect
prompt text and are not modelled. -/
structure Message where
  role : String
  content : String
deriving Repr, DecidableEq

/-- The shared conversation `State` (src/src/ts_agent/types.py), restricted
to the fields the embedded stages read or write. A dict key that is
missing and a key set to `None` are both modelled as `none` (the embedded
code only distinguishes them through `dict.get` defaults, which treat a
present `None` as a value; no claim exercises that corner). List-valued
keys use `[]` for a missing key, matching the `get(key, [])` reads.
`tool_data` and `docs_data` only feed prompt text and are not modelled. -/
structure CState where
  conversation_id : String
  messages : List Message
  subject : Option String
  melvin_admin_id : Option String
  available_tools : List AvailableTool
  procedure_required_action_tools : List String
  hops : List HopData
  max_hops : Option Nat
  actions : List ActionData
  max_actions : Option Nat
  actions_taken : Option Nat
  max_validation_retries : Option Nat
  draft : Option DraftData
  validate : List ValidateData
  escalate : Option EscalateData
  response_delivery : Option ResponseData
  next_node : Option String
  escalation_reason : Option String
  response : String
  error : Option String
deriving Repr

/-- `build_conversation_and_user_context` (src/src/utils/prompts.py lines
116-124) raises ValueError iff there are no messages and no non-blank
subject; only that validation affects control flow. -/
def contextValid (s : CState) : Bool :=
  !s.messages.isEmpty ||
    (match s.subject with
     | some t => t.trim ≠ ""
     | none => false)

/-- The ValueError message raised by `build_conversation_and_user_context`. -/
def contextErrorMsg : String :=
  "No conversation messages or subject found in state"

/-- coverage.py lines 79-93: procedure-required action tools missing from
the plan are appended with empty parameters. The name check uses the list
of planned tool names computed before the loop, exactly as the source
does. -/
def addProcedureRequired (planned : List PlannedTool) (required : List String) :
    List PlannedTool :=
  let planned_tool_names := planned.map (·.tool_name)
  planned ++ (required.filter (fun n => !planned_tool_names.contains n)).map
    (fun n => { tool_name := n, parameters := [],
                reasoning := "Required by procedure (auto-added)" })

/-- `_enrich_action_tools_with_schemas` (coverage.py lines 253-285). -/
def enrich_action_tools_with_schemas (planned : List PlannedTool)
    (available : List AvailableTool) : List PlannedTool :=
  planned.map (fun pt =>
    match available.find? (fun t => t.name = pt.tool_name) with
    | some ts => { pt with tool_schema := some ts }
    | none => pt)

/-- Retry bound for malformed structured output (coverage.py line 326). -/
def max_pydantic_retries : Nat := 2

/-- Retry bound for invalid action parameters (coverage.py line 328).
The source assigns this variable but never reads it again: the
parameter-retry check on line 494 compares against `max_pydantic_retries`
instead. -/
def max_param_retries : Nat := 1

/-- The standard escalation reason used by both max-hops overrides
(coverage.py lines 151 and 483/513). -/
def maxHopsReason (max_hops : Nat) : String :=
  "Exceeded maximum hops (" ++ toString max_hops ++ "). Unable to gather sufficient data."

/-- The max-hops override applied inside `_analyze_coverage` before each
successful return (coverage.py lines 479-484 and 510-514): when the data
is insufficient and the hop number has reached the ceiling, the next
action is forced to escalate with the standard reason. -/
def applyMaxHopsOverride (hop_number max_hops : Nat) (r : CoverageResponse) :
    CoverageResponse :=
  if !r.data_sufficient ∧ hop_number ≥ max_hops then
    { r with next_action := "escalate",
             escalation_reason := some (maxHopsReason max_hops) }
  else r

/-- `_format_param_validation_error` (coverage.py lines 741-747) for
JSON-schema errors, `str(e)` otherwise (line 489). -/
def paramErrorDetails (e : PyError) (tool_name : String) : String :=
  match e with
  | .jsonSchemaValidationError m => tool_name ++ ": " ++ m
  | _ => PyError.str e

/-- A line of 80 `=` characters used by the prompt-feedback formatters. -/
def eqLine : String := "".pushn '=' 80

/-- `_format_param_error_for_prompt` (coverage.py lines 750-793). -/
def format_param_error_for_prompt (errMsg : String) (tool_name : String)
    (input_schema : InputSchema) : String :=
  let requiredLines := input_schema.required.map (fun param =>
    let param_schema := (alistGet input_schema.properties param).getD (.obj [])
    let param_type := match alistGet (match param_schema with
      | .obj fs => fs
      | _ => []) "type" with
      | some (.str t) => t
      | _ => "unknown"
    let param_desc := match alistGet (match param_schema with
      | .obj fs => fs
      | _ => []) "description" with
      | some (.str d) => d
      | _ => ""
    "  • " ++ param ++ " (" ++ param_type ++ "): " ++ param_desc)
  String.intercalate "\n"
    ([eqLine, "⚠️ ACTION PARAMETER VALIDATION ERROR", eqLine,
      "Your parameters for '" ++ tool_name ++ "' failed validation.\n",
      "ERROR: " ++ errMsg ++ "\n",
      "REQUIRED PARAMETERS:"] ++ requiredLines ++
     ["\nPlease provide ALL required parameters with correct values based on gathered data.",
      eqLine, ""])

/-- The parameter-error feedback threaded into the next prompt
(coverage.py line 500): the JSON-schema formatter, or a plain
`Parameter error:` prefix for other exceptions. -/
def paramFeedback (e : PyError) (tool_name : String) (input_schema : InputSchema) : String :=
  match e with
  | .jsonSchemaValidationError m => format_param_error_for_prompt m tool_name input_schema
  | _ => "Parameter error: " ++ PyError.str e

/-- `_format_pydantic_error_for_prompt` (coverage.py lines 687-738). The
per-field rendering of the pydantic error list is abstracted to the
error's summary text, which the oracle supplies as a single string. -/
def format_pydantic_error_for_prompt (errMsg : String) : String :=
  String.intercalate "\n"
    [eqLine, "🚨 RESPONSE FORMAT ERROR", eqLine,
     "Your previous response had formatting errors. Fix the following:\n",
     errMsg, "", "REQUIRED STRUCTURE: see the CoverageResponse schema.", eqLine, ""]

/-- Outcome of one structured-output generation call in `_analyze_coverage`:
a parsed `CoverageResponse`, a pydantic validation failure (caught and
retried), or any other exception (propagates out of the stage). -/
inductive GenAttempt where
  | ok (r : CoverageResponse)
  | malformed (msg : String)
  | raised (msg : String)

/-- The inputs of one generation call inside `_analyze_coverage`: the
0-based attempt index and the error-feedback texts appended to the prompt
(coverage.py lines 357-363). -/
structure GenCall where
  attempt : Nat
  pydantic_error_text : Option String
  param_error_text : Option String
deriving Repr, DecidableEq

/-- External collaborators of the Coverage stage: the structured-output
LLM (a function of the prompt-relevant inputs of each attempt) and the
jsonschema `validate` library call (coverage.py line 472), which returns
`.ok` or raises. -/
structure CovEnv where
  gen : GenCall → GenAttempt
  jsValidate : List (String × Value) → InputSchema → Except PyError Unit

/-- The retry loop of `_analyze_coverage` (coverage.py lines 331-533),
instrumented with the trace of generation calls it performs.
`remaining = max_pydantic_retries - attempt`; both the malformed-output
branch (line 525) and the parameter-error branch (line 494) re-raise when
the attempt index has reached `max_pydantic_retries`. -/
def analyzeCoverageGo (env : CovEnv) (hop_number max_hops : Nat)
    (planned_action_tools : List PlannedTool) (conversation_id : String) :
    Nat → Nat → Option String → Option String → List GenCall →
    Except PyError CoverageResponse × List GenCall
  | remaining, attempt, pydText, paramText, trace =>
    let call : GenCall := ⟨attempt, pydText, paramText⟩
    let trace := trace ++ [call]
    match env.gen call with
    | .raised msg => (.error (.otherError msg), trace)
    | .malformed msg =>
      match remaining with
      | 0 => (.error (.pydanticValidationError msg), trace)
      | r + 1 =>
        analyzeCoverageGo env hop_number max_hops planned_action_tools conversation_id
          r (attempt + 1) (some (format_pydantic_error_for_prompt msg)) paramText trace
    | .ok resp =>
      match resp.action_decision with
      | some d =>
        if resp.next_action = "execute_action" then
          match planned_action_tools.find? (fun t => t.tool_name = d.action_tool_name) with
          | some tl =>
            match tl.tool_schema with
            | some ts =>
              let input_schema := ts.inputSchema
              let injection_map := [("conversation_id", Value.str conversation_id)]
              let paramRes : Except PyError (List (String × Value)) :=
                match sanitize_tool_params d.parameters input_schema
                    d.action_tool_name injection_map none with
                | .error e => .error e
                | .ok sp =>
                  if input_schema.truthy ∧ !input_schema.properties.isEmpty then
                    match env.jsValidate sp input_schema with
                    | .error e => .error e
                    | .ok _ => .ok sp
                  else .ok sp
              match paramRes with
              | .ok sp =>
                let resp := { resp with action_decision := some { d with parameters := sp } }
                (.ok (applyMaxHopsOverride hop_number max_hops resp), trace)
              | .error e =>
                match remaining with
                | 0 => (.error (.valueError ("Action parameter validation failed: " ++
                    paramErrorDetails e d.action_tool_name)), trace)
                | r + 1 =>
                  analyzeCoverageGo env hop_number max_hops planned_action_tools
                    conversation_id r (attempt + 1) pydText
                    (some (paramFeedback e d.action_tool_name input_schema)) trace
            | none => (.ok (applyMaxHopsOverride hop_number max_hops resp), trace)
          | none => (.ok (applyMaxHopsOverride hop_number max_hops resp), trace)
        else (.ok (applyMaxHopsOverride hop_number max_hops resp), trace)
      | none => (.ok (applyMaxHopsOverride hop_number max_hops resp), trace)

/-- `_analyze_coverage` (coverage.py lines 290-533): run the retry loop
from attempt 0 with no feedback. Returns the stage result together with
the trace of generation calls made. -/
def analyze_coverage (env : CovEnv) (hop_number max_hops : Nat)
    (planned_action_tools : List PlannedTool) (conversation_id : String) :
    Except PyError CoverageResponse × List GenCall :=
  analyzeCoverageGo env hop_number max_hops planned_action_tools conversation_id
    max_pydantic_retries 0 none none []

/-- The state updates the routing block of coverage_node performs on the
analysis result: the `next_node` assignment (if any branch assigns one),
the `escalation_reason` assignment (the outer `Option` distinguishes "no
assignment" from an assignment, whose value may itself be `none`), and the
possibly-updated coverage response. -/
structure CovDispatch where
  assign_next : Option String
  assign_reason : Option (Option String)
  resp : CoverageResponse

/-- The routing block of coverage_node (coverage.py lines 144-232), applied
to the response `_analyze_coverage` returned. The `execute_action` branch
re-runs `sanitize_tool_params` (lines 204-210) inside a try that routes to
respond on any exception (lines 222-225). -/
def dispatchCoverage (resp : CoverageResponse) (hop_number max_hops : Nat)
    (actions_taken max_actions : Nat) (enriched : List PlannedTool)
    (conversation_id : String) : CovDispatch :=
  if resp.next_action = "gather_more" then
    if hop_number ≥ max_hops then
      let reason := maxHopsReason max_hops
      { assign_next := some "escalate", assign_reason := some (some reason),
        resp := { resp with next_action := "escalate", escalation_reason := some reason } }
    else
      { assign_next := some "plan", assign_reason := none, resp := resp }
  else if resp.next_action = "execute_action" then
    if actions_taken ≥ max_actions then
      { assign_next := some "respond", assign_reason := none, resp := resp }
    else
      match resp.action_decision with
      | none => { assign_next := some "respond", assign_reason := none, resp := resp }
      | some d =>
        match enriched.find? (fun t => t.tool_name = d.action_tool_name) with
        | none => { assign_next := some "respond", assign_reason := none, resp := resp }
        | some tl =>
          -- try block, lines 185-225; any exception routes to respond
          match ToolType.attr "ACTION" with
          | none => { assign_next := some "respond", assign_reason := none, resp := resp }
          | some actionVal =>
            let tool_type := tl.tool_type.getD actionVal
            match tl.tool_schema with
            | none => { assign_next := some "respond", assign_reason := none, resp := resp }
            | some ts =>
              let input_schema := ts.inputSchema
              let injection_map := [("conversation_id", Value.str conversation_id)]
              match sanitize_tool_params d.parameters input_schema
                  d.action_tool_name injection_map (some tool_type) with
              | .ok sp =>
                { assign_next := some "action", assign_reason := none,
                  resp := { resp with action_decision := some { d with parameters := sp } } }
              | .error _ =>
                { assign_next := some "respond", assign_reason := none, resp := resp }
  else if resp.next_action = "continue" then
    { assign_next := some "respond", assign_reason := none, resp := resp }
  else if resp.next_action = "escalate" then
    { assign_next := some "escalate", assign_reason := some resp.escalation_reason,
      resp := resp }
  else
    { assign_next := none, assign_reason := none, resp := resp }

/-- The error text coverage_node records when `_analyze_coverage` raises
(coverage.py lines 242-245). -/
def covFailMsg (e : PyError) : String :=
  "Coverage analysis failed: " ++ PyError.str e

/-- The action-tool list coverage_node builds before analysis (coverage.py
lines 68-96): the current hop's planned action tools, with
procedure-required tools auto-added, enriched with full schemas. -/
def coverageEnrichedTools (current_hop : HopData) (s : CState) : List PlannedTool :=
  let planned := match current_hop.plan with
    | some p => p.action_tool_calls
    | none => []
  enrich_action_tools_with_schemas
    (addProcedureRequired planned s.procedure_required_action_tools)
    s.available_tools

/-- The hop number coverage_node and action_node read from the current
hop: its `hop_number` key, defaulting to the hop's 1-based index (which
equals the hop-list length for the last hop). `0` stands for the empty
hop list, on which both nodes return early. -/
def currentHopNumber (s : CState) : Nat :=
  match s.hops.getLast? with
  | some h => h.hop_number.getD s.hops.length
  | none => 0

/-- `coverage_node` (coverage.py lines 19-248). The two early returns
(empty hop list, context ValueError) set only `error`; a failure of
`_analyze_coverage` sets `error` and routes to escalate; otherwise the
routing block's assignments are applied and the coverage record is stored
into the current hop (lines 234-240). -/
def coverage_node (env : CovEnv) (s : CState) : CState :=
  match s.hops.getLast? with
  | none => { s with error := some "No current hop data found" }
  | some current_hop =>
    let hop_number := current_hop.hop_number.getD ((s.hops.length - 1) + 1)
    let max_hops := s.max_hops.getD 3
    if contextValid s then
      let enriched := coverageEnrichedTools current_hop s
      let actions_taken := s.actions_taken.getD 0
      let max_actions := s.max_actions.getD 1
      match (analyze_coverage env hop_number max_hops enriched s.conversation_id).fst with
      | .error e =>
        { s with error := some (covFailMsg e),
                 next_node := some "escalate",
                 escalation_reason := some (covFailMsg e) }
      | .ok resp =>
        let d := dispatchCoverage resp hop_number max_hops actions_taken max_actions
          enriched s.conversation_id
        let next_node := match d.assign_next with
          | some nn => some nn
          | none => s.next_node
        let escalation_reason := match d.assign_reason with
          | some r => r
          | none => s.escalation_reason
        let covData : CoverageData :=
          { coverage_response := d.resp, next_node := next_node.getD "end" }
        { s with next_node := next_node,
                 escalation_reason := escalation_reason,
                 hops := s.hops.dropLast ++ [{ current_hop with coverage := some covData }] }
    else
      { s with error := some contextErrorMsg }

/-- `route_from_initialize` (graph.py lines 71-76). -/
def route_from_initialize (s : CState) : String :=
  if strOptTruthy s.error then "escalate" else "procedure"

/-- `route_from_plan` (graph.py lines 39-44). -/
def route_from_plan (s : CState) : String :=
  if strOptTruthy s.error then "escalate" else "gather"

/-- `route_from_gather` (graph.py lines 47-52). -/
def route_from_gather (s : CState) : String :=
  if strOptTruthy s.error then "escalate" else "coverage"

/-- `route_from_coverage` (graph.py lines 55-68). -/
def route_from_coverage (s : CState) : String :=
  let next_node := s.next_node.getD "end"
  if next_node = "plan" then "plan"
  else if next_node = "respond" then "draft"
  else if next_node = "action" then "action"
  else if next_node = "escalate" then "escalate"
  else "end"

/-- `route_from_action` (graph.py lines 143-152). -/
def route_from_action (s : CState) : String :=
  let next_node := s.next_node.getD "coverage"
  if next_node = "coverage" then "coverage"
  else if next_node = "escalate" then "escalate"
  else "coverage"

/-- `route_from_draft` (graph.py lines 93-99). -/
def route_from_draft (s : CState) : String :=
  if s.next_node = some "escalate" then "escalate" else "validate"

/-- `route_from_validate` (graph.py lines 79-90). -/
def route_from_validate (s : CState) : String :=
  let next_node := s.next_node.getD "end"
  if next_node = "response" then "response"
  else if next_node = "draft" then "draft"
  else if next_node = "escalate" then "escalate"
  else "end"

/-- `route_from_response` (graph.py lines 186-197). -/
def route_from_response (s : CState) : String :=
  let next_node := s.next_node.getD "finalize"
  if next_node = "escalate" then "escalate" else "finalize"

/-- `NO_ESCALATION_TOOLS` (action.py lines 234-239). -/
def NO_ESCALATION_TOOLS : List String :=
  ["route_conversation_to_project_client",
   "generate_reset_interview_link",
   "generate_reset_tax_document_link",
   "generate_reset_form_link"]

/-- `_action_requires_review` (action.py lines 216-268), parameterized by
the stdlib `json.loads` (`none` models `json.JSONDecodeError`). A text
payload that parses to a non-dict makes `parsed.get` raise AttributeError,
which this function propagates (it is caught by action_node's outer
`except`); all other fall-throughs default to requiring review. The
truthiness of the returned `match_found` value is taken, matching every
reader of the flag. -/
def action_requires_review (jsonLoads : String → Option Value)
    (tool_name : String) (result_data : Value) : Except PyError Bool :=
  if NO_ESCALATION_TOOLS.contains tool_name then
    .ok false
  else if tool_name = "match_and_link_conversation_to_ticket" then
    match result_data with
    | .list (first_item :: _) =>
      match first_item with
      | .obj fields =>
        match (alistGet fields "text").getD (.str "") with
        | .str text =>
          match jsonLoads text with
          | none => .ok true
          | some parsed =>
            match parsed with
            | .obj pf => .ok (((alistGet pf "match_found").getD (.bool false)).truthy)
            | _ => .error (.attributeError "get")
        | _ => .ok true
      | _ => .ok true
    | _ => .ok true
  else
    .ok true

/-- Modelled from the spec: `format_action_audit_note` lives in
src/utils/formatting.py, which is not among the provided sources. Per
§4.5 the audit trail records the action's name and its success or failure
(with the error); its exact wording does not affect control flow. -/
def format_action_audit_note (action_name : String) (success : Bool)
    (error : Option String) : String :=
  "Action " ++ action_name ++ (if success then " succeeded" else " failed") ++
    (match error with
     | some m => ". Error: " ++ m
     | none => "")

/-- External collaborators of the Action stage: the MCP `call_tool`
result (an exception message on failure, already unwrapped by
`_execute_action_tool`'s re-raise prefix being applied in action_node
below) and `json.loads` used by the review policy. The best-effort
Intercom audit note never affects the result state. -/
structure ActionEnv where
  call : Except String Value
  jsonLoads : String → Option Value

/-- The failure branch of action_node (action.py lines 156-211): one
failed record with `requires_review = True` is appended, the counter is
incremented, and the stage escalates naming the failed tool. -/
def actionFailure (s : CState) (d : ActionDecision) (hop_number : Nat)
    (error_msg : String) : CState :=
  let audit := format_action_audit_note d.action_tool_name false (some error_msg)
  let entry : ActionData :=
    { tool_name := d.action_tool_name, success := false, error := some error_msg,
      audit_notes := audit, requires_review := true,
      hop_number := hop_number, execution_status := "failed" }
  { s with actions := s.actions ++ [entry],
           actions_taken := some (s.actions_taken.getD 0 + 1),
           next_node := some "escalate",
           escalation_reason := some ("Action tool failed: " ++ d.action_tool_name ++
             ". Error: " ++ error_msg ++ ". Human review required.") }

/-- `action_node` (action.py lines 13-213). The MCP call is the `call`
oracle; `_execute_action_tool` re-raises failures with the
`Action tool execution failed:` prefix, which feeds the failure branch.
An exception from `_action_requires_review` (inside the outer try) also
lands in the failure branch. -/
def action_node (env : ActionEnv) (s : CState) : CState :=
  match s.hops.getLast? with
  | none => { s with error := some "No current hop data found" }
  | some current_hop =>
    let hop_number := current_hop.hop_number.getD s.hops.length
    match current_hop.coverage with
    | none => { s with error := some "No coverage response found" }
    | some cov =>
      match cov.coverage_response.action_decision with
      | none => { s with error := some "No action decision specified by coverage node" }
      | some d =>
        if d.action_tool_name = "" then
          { s with error := some "No action tool name in coverage decision" }
        else
          match env.call with
          | .ok result_data =>
            match action_requires_review env.jsonLoads d.action_tool_name result_data with
            | .ok requires_review =>
              let audit := format_action_audit_note d.action_tool_name true none
              let entry : ActionData :=
                { tool_name := d.action_tool_name, success := true, error := none,
                  audit_notes := audit, requires_review := requires_review,
                  hop_number := hop_number, execution_status := "completed" }
              { s with actions := s.actions ++ [entry],
                       actions_taken := some (s.actions_taken.getD 0 + 1),
                       next_node := some "coverage" }
            | .error e => actionFailure s d hop_number (PyError.str e)
          | .error msg =>
            actionFailure s d hop_number ("Action tool execution failed: " ++ msg)

/-- The structured draft the LLM returns (`DraftResponse`; the draft
schemas file is not among the provided sources, the fields are the ones
draft.py reads on lines 160-164, with `response_type.value` one of
"REPLY" or "ROUTE_TO_TEAM"). -/
structure DraftResult where
  response : String
  response_type : String
  escalation_reason : Option String
deriving Repr, DecidableEq

/-- External collaborator of the Draft stage: the structured-output
generation call (`.error` models any exception from `_generate_response`). -/
structure DraftEnv where
  gen : Except String DraftResult

/-- `draft_node` (draft.py lines 16-121). The validation feedback read on
lines 30-37 and the accumulated data only shape the prompt, which the
oracle already accounts for. Note the `escalation_reason` default on line
96 is dead: the generation result dict always carries the key, so the
state takes the draft's own (possibly `None`) reason. -/
def draft_node (env : DraftEnv) (s : CState) : CState :=
  if contextValid s then
    match env.gen with
    | .ok r =>
      let draft_data : DraftData :=
        { response := r.response, response_type := r.response_type,
          escalation_reason := r.escalation_reason, error := none }
      let s := { s with draft := some draft_data, response := r.response }
      if r.response_type = "ROUTE_TO_TEAM" then
        { s with next_node := some "validate", escalation_reason := r.escalation_reason }
      else
        { s with next_node := some "validate" }
    | .error msg =>
      let error_msg := "Draft generation failed: " ++ msg
      { s with draft := some { response := "", response_type := "REPLY",
                               escalation_reason := none, error := none },
               error := some error_msg,
               next_node := some "escalate",
               escalation_reason := some ("Draft generation error: " ++ msg) }
  else
    { s with error := some contextErrorMsg,
             next_node := some "escalate",
             escalation_reason := some contextErrorMsg }

/-- Pydantic parse `ValidationResponse(**validation_result)`
(validate/schemas.py lines 9-17): the raw verdict must be an object with a
boolean `overall_passed`. (Pydantic's lax coercions of near-boolean
values are not exercised by any claim.) -/
def ValidationResponse.parse (raw : Value) : Except PyError Bool :=
  match raw with
  | .obj fields =>
    match alistGet fields "overall_passed" with
    | some (.bool b) => .ok b
    | some _ => .error (.pydanticValidationError "overall_passed: value is not a valid boolean")
    | none => .error (.pydanticValidationError "overall_passed: Field required")
  | _ => .error (.pydanticValidationError "Input should be a valid dictionary")

/-- External collaborator of the Validate stage: the validator endpoint.
`.ok raw noteOk` is an HTTP 200 whose JSON body is `raw` (with `noteOk`
the outcome of the best-effort Intercom note); `.raise msg` is any
exception before the body is obtained (missing configuration, transport
failure, non-2xx status). -/
inductive ValidateEnv where
  | ok (raw : Value) (noteOk : Bool)
  | raise (msg : String)

/-- The standard escalation reason when validation retries are exhausted
(validate.py line 151). -/
def validationFailReason (max_validation_retries : Nat) : String :=
  "Validation failed after " ++ toString (max_validation_retries + 1) ++
    " attempts - see validation notes for details"

/-- `validate_node` (validate.py lines 19-174). Every path appends exactly
one record to the `validate` list (lines 166-169); the attempt count is
the list length before the call (line 40). -/
def validate_node (env : ValidateEnv) (s : CState) : CState :=
  let max_validation_retries := s.max_validation_retries.getD 1
  let current_retry_count := s.validate.length
  if s.response = "" then
    let error_msg := "Validation error: No response text found to validate"
    let vd : ValidateData :=
      { validation_response := none, overall_passed := false,
        validation_note_added := false, escalation_reason := some error_msg,
        next_action := "escalate", retry_count := current_retry_count }
    { s with validate := s.validate ++ [vd], error := some error_msg,
             next_node := some "escalate", escalation_reason := some error_msg }
  else
    match env with
    | .raise msg =>
      let error_msg := "Validation error: " ++ msg
      let vd : ValidateData :=
        { validation_response := none, overall_passed := false,
          validation_note_added := false, escalation_reason := some error_msg,
          next_action := "escalate", retry_count := current_retry_count }
      { s with validate := s.validate ++ [vd], error := some error_msg,
               next_node := some "escalate", escalation_reason := some error_msg }
    | .ok raw noteOk =>
      let note_added : Bool :=
        s.conversation_id ≠ "" && strOptTruthy s.melvin_admin_id && noteOk
      match ValidationResponse.parse raw with
      | .error e =>
        let error_msg := "Validation error: " ++ PyError.str e
        let vd : ValidateData :=
          { validation_response := some raw, overall_passed := false,
            validation_note_added := note_added, escalation_reason := some error_msg,
            next_action := "escalate", retry_count := current_retry_count }
        { s with validate := s.validate ++ [vd], error := some error_msg,
                 next_node := some "escalate", escalation_reason := some error_msg }
      | .ok overall_passed =>
        if overall_passed then
          let vd : ValidateData :=
            { validation_response := some raw, overall_passed := true,
              validation_note_added := note_added, escalation_reason := none,
              next_action := "response", retry_count := current_retry_count }
          { s with validate := s.validate ++ [vd], next_node := some "response" }
        else if current_retry_count < max_validation_retries then
          let vd : ValidateData :=
            { validation_response := some raw, overall_passed := false,
              validation_note_added := note_added, escalation_reason := none,
              next_action := "draft", retry_count := current_retry_count }
          { s with validate := s.validate ++ [vd], next_node := some "draft" }
        else
          let reason := validationFailReason max_validation_retries
          let vd : ValidateData :=
            { validation_response := some raw, overall_passed := false,
              validation_note_added := note_added, escalation_reason := some reason,
              next_action := "escalate", retry_count := current_retry_count }
          { s with validate := s.validate ++ [vd], next_node := some "escalate",
                   escalation_reason := some reason }

/-- Outcome of the Intercom `send_message` call in the Respond stage:
delivered, or any exception in the delivery try (including a missing API
key and a falsy send result, which raises ValueError on line 70). -/
inductive SendOutcome where
  | delivered
  | failed (msg : String)

/-- External collaborator of the Respond stage. -/
structure RespEnv where
  send : SendOutcome

/-- The escalation reason listing actions that require review
(response.py lines 111-114). -/
def reviewReason (actions : List ActionData) : String :=
  let action_names := String.intercalate ", "
    ((actions.filter (·.requires_review)).map (·.tool_name))
  "Action tools made changes requiring review: " ++ action_names ++
    ". Human verification needed."

/-- The post-delivery routing chain of response_node (response.py lines
88-118), run after the delivery record is stored. -/
def responseRouting (s : CState) (delivered : Bool) : CState :=
  let should_escalate_from_draft : Bool := match s.draft with
    | some dd => dd.response_type = "ROUTE_TO_TEAM"
    | none => false
  let should_escalate_from_actions := s.actions.any (·.requires_review)
  if s.next_node = some "escalate" then s
  else if !delivered then { s with next_node := some "escalate" }
  else if should_escalate_from_draft then { s with next_node := some "escalate" }
  else if should_escalate_from_actions then
    { s with next_node := some "escalate",
             escalation_reason := some (reviewReason s.actions) }
  else { s with next_node := some "finalize" }

/-- The outcome of the delivery try of response_node (response.py lines
34-70): the internal pre-checks (empty response text, missing conversation
or admin id) raise inside the same try as the send itself; `none` means
the message was delivered. -/
def deliveryError (env : RespEnv) (s : CState) : Option String :=
  if s.response = "" then some "No response text to send"
  else if !(s.conversation_id ≠ "" ∧ strOptTruthy s.melvin_admin_id) then
    some "Missing conversation_id or melvin_admin_id"
  else match env.send with
    | .delivered => none
    | .failed msg => some msg

/-- `response_node` (response.py lines 12-122). Delivery failure stores a
failed record and sets error, escalation_reason and next_node before the
routing chain runs. -/
def response_node (env : RespEnv) (s : CState) : CState :=
  match deliveryError env s with
  | none =>
    let rd : ResponseData := { success := true, intercom_delivered := true, error := none }
    responseRouting { s with response_delivery := some rd } true
  | some m =>
    let error_msg := "Failed to deliver response: " ++ m
    let rd : ResponseData :=
      { success := false, intercom_delivered := false, error := some error_msg }
    responseRouting
      { s with error := some error_msg, escalation_reason := some error_msg,
               next_node := some "escalate", response_delivery := some rd }
      false

/-- `_determine_escalation_source` (escalate.py lines 87-132). Note the
coverage check on line 121 reads `coverage_data.get("next_action")`; the
stored coverage dict has keys `coverage_response` and `next_node` only. -/
def determine_escalation_source (s : CState) : String :=
  let actions_taken := s.actions_taken.getD 0
  let escalation_reason := s.escalation_reason.getD ""
  let draft_route_to_team : Bool := match s.draft with
    | some dd => dd.response_type = "ROUTE_TO_TEAM"
    | none => false
  let last_validation_failed : Bool := match s.validate.getLast? with
    | some last_validation => !last_validation.overall_passed
    | none => false
  let coverage_escalated : Bool := match s.hops.getLast? with
    | some last_hop =>
      match last_hop.coverage with
      | some coverage_data => coverage_data.getStr "next_action" == some "escalate"
      | none => false
    | none => false
  let draft_errored : Bool := match s.draft with
    | some dd => strOptTruthy dd.error
    | none => false
  if actions_taken > 0 ∧ containsSub escalation_reason.toLower "action" then
    "action"
  else if draft_route_to_team then "draft"
  else if last_validation_failed then "validate"
  else if coverage_escalated then "coverage"
  else if draft_errored then "draft"
  else if strOptTruthy s.error ∧ s.hops.isEmpty then
    "initialization"
  else
    "unknown"

/-- Outcome of the Intercom escalation note (escalate.py lines 52-76):
posted, failed before the note content was built (missing API key), or
failed at the `add_note` call. -/
inductive EscalateNoteOutcome where
  | added
  | failedEarly
  | failedLate

/-- External collaborator of the Escalate stage. -/
structure EscalateEnv where
  note : EscalateNoteOutcome

/-- `_build_escalation_note` (escalate.py lines 135-146). -/
def build_escalation_note (reason : String) : String :=
  "🚨 Escalation: " ++ reason

/-- `escalate_node` (escalate.py lines 19-84). When the conversation or
admin id is missing the note is skipped and the stage routes to "end"
(line 49); otherwise the note posting is best-effort and the stage routes
to finalize. -/
def escalate_node (env : EscalateEnv) (s : CState) : CState :=
  let reason := s.escalation_reason.getD "Unknown escalation reason"
  let source := determine_escalation_source s
  if !(s.conversation_id ≠ "" ∧ strOptTruthy s.melvin_admin_id) then
    { s with escalate := some { escalation_reason := reason, escalation_source := source,
                                note_added := false, note_content := none },
             next_node := some "end" }
  else
    let note_content := build_escalation_note reason
    let escalate_data : EscalateData :=
      match env.note with
      | .added =>
        { escalation_reason := reason, escalation_source := source,
          note_added := true, note_content := some note_content }
      | .failedEarly =>
        { escalation_reason := reason, escalation_source := source,
          note_added := false, note_content := none }
      | .failedLate =>
        { escalation_reason := reason, escalation_source := source,
          note_added := false, note_content := some note_content }
    { s with escalate := some escalate_data, next_node := some "finalize" }

/-- The stages of the LangGraph built in graph.py, plus the END node. -/
inductive GNode where
  | initStage
  | procedureStage
  | planStage
  | gatherStage
  | coverageStage
  | actionStage
  | draftStage
  | validateStage
  | responseStage
  | escalateStage
  | finalizeStage
  | terminal
deriving Repr, DecidableEq

/-- The conditional edge map out of initialize (graph.py lines 101-108). -/
def targetFromInit (s : CState) : GNode :=
  if route_from_initialize s = "escalate" then .escalateStage else .procedureStage

/-- The conditional edge map out of plan (graph.py lines 112-119). -/
def targetFromPlan (s : CState) : GNode :=
  if route_from_plan s = "escalate" then .escalateStage else .gatherStage

/-- The conditional edge map out of gather (graph.py lines 121-128). -/
def targetFromGather (s : CState) : GNode :=
  if route_from_gather s = "escalate" then .escalateStage else .coverageStage

/-- The conditional edge map out of coverage (graph.py lines 130-140). -/
def targetFromCoverage (s : CState) : GNode :=
  let r := route_from_coverage s
  if r = "plan" then .planStage
  else if r = "draft" then .draftStage
  else if r = "action" then .actionStage
  else if r = "escalate" then .escalateStage
  else .terminal

/-- The conditional edge map out of action (graph.py lines 154-161). -/
def targetFromAction (s : CState) : GNode :=
  if route_from_action s = "escalate" then .escalateStage else .coverageStage

/-- The conditional edge map out of draft (graph.py lines 164-171). -/
def targetFromDraft (s : CState) : GNode :=
  if route_from_draft s = "escalate" then .escalateStage else .validateStage

/-- The conditional edge map out of validate (graph.py lines 174-183). -/
def targetFromValidate (s : CState) : GNode :=
  let r := route_from_validate s
  if r = "response" then .responseStage
  else if r = "draft" then .draftStage
  else if r = "escalate" then .escalateStage
  else .terminal

/-- The conditional edge map out of response (graph.py lines 199-206). -/
def targetFromResponse (s : CState) : GNode :=
  if route_from_response s = "escalate" then .escalateStage else .finalizeStage

/-- The state fields the run-level invariants track, as a frame condition:
the action log and counter, the validation log, both retry ceilings, and
the delivery record are untouched. -/
def frameCore (s s' : CState) : Prop :=
  s'.actions = s.actions ∧
  s'.actions_taken.getD 0 = s.actions_taken.getD 0 ∧
  s'.validate = s.validate ∧
  s'.max_actions.getD 1 = s.max_actions.getD 1 ∧
  s'.max_validation_retries.getD 1 = s.max_validation_retries.getD 1 ∧
  s'.response_delivery = s.response_delivery

/-- Abstraction of initialize_node (src/src/ts_agent/nodes/initialize/
initialize.py) for the run-level invariants: the node writes `actions`,
`actions_taken` and `max_actions` only through `get`-or-default
assignments (lines 179-181), which preserve the defaulted reads tracked
by `frameCore`, and it never writes `validate`, `max_validation_retries`,
`response_delivery` or `next_node`. All its other effects are left
unconstrained. -/
def initNodeRel (s s' : CState) : Prop :=
  frameCore s s' ∧ (s'.next_node = s.next_node ∨ s'.next_node = some "escalate")

/-- Abstraction of procedure_node (src/src/ts_agent/nodes/procedure/
procedure.py) for the run-level invariants: its only state writes are
`selected_procedure`, `procedure_node`, `available_tools` and
`procedure_required_action_tools`. -/
def procedureNodeRel (s s' : CState) : Prop :=
  frameCore s s' ∧ (s'.next_node = s.next_node ∨ s'.next_node = some "escalate")

/-- Modelled from the spec: plan.py is not among the provided sources
(only its schemas directory exists). Per §4.2 the Plan stage produces the
hop's tool-call plan and, on generation failure, sets the error so the
engine routes to Escalate; it does not touch the action log, the
validation log, the ceilings or the delivery record. -/
def planNodeRel (s s' : CState) : Prop :=
  frameCore s s' ∧ (s'.next_node = s.next_node ∨ s'.next_node = some "escalate")

/-- Abstraction of gather_node (src/src/ts_agent/nodes/gather/gather.py)
for the run-level invariants: its state writes are the gather record in
the current hop, `tool_data`, `docs_data`, `error`, and — on a
stage-level failure — `next_node = "escalate"` with an escalation
reason. -/
def gatherNodeRel (s s' : CState) : Prop :=
  frameCore s s' ∧ (s'.next_node = s.next_node ∨ s'.next_node = some "escalate")

/-- Abstraction of finalize_node (src/src/ts_agent/nodes/finalize/
finalize.py) for the run-level invariants: both of its exit paths write
only the `finalize` record and `next_node = "end"` (lines 101-102 and
159-160). -/
def finalizeNodeRel (s s' : CState) : Prop :=
  frameCore s s' ∧ s'.next_node = some "end"

/-- One engine step of the compiled graph (graph.py): the current stage's
node function runs on the state, then the stage's conditional edge map
picks the successor. The embedded stages step through their definitions
under an arbitrary choice of external-collaborator oracle; the
non-embedded stages step through their frame relations. Procedure → plan,
escalate → finalize and finalize → END are the unconditional edges. -/
inductive RunStep : GNode × CState → GNode × CState → Prop where
  | stepInit {s s' : CState} : initNodeRel s s' →
      RunStep (.initStage, s) (targetFromInit s', s')
  | stepProcedure {s s' : CState} : procedureNodeRel s s' →
      RunStep (.procedureStage, s) (.planStage, s')
  | stepPlan {s s' : CState} : planNodeRel s s' →
      RunStep (.planStage, s) (targetFromPlan s', s')
  | stepGather {s s' : CState} : gatherNodeRel s s' →
      RunStep (.gatherStage, s) (targetFromGather s', s')
  | stepCoverage {s : CState} (env : CovEnv) :
      RunStep (.coverageStage, s)
        (targetFromCoverage (coverage_node env s), coverage_node env s)
  | stepAction {s : CState} (env : ActionEnv) :
      RunStep (.actionStage, s)
        (targetFromAction (action_node env s), action_node env s)
  | stepDraft {s : CState} (env : DraftEnv) :
      RunStep (.draftStage, s)
        (targetFromDraft (draft_node env s), draft_node env s)
  | stepValidate {s : CState} (env : ValidateEnv) :
      RunStep (.validateStage, s)
        (targetFromValidate (validate_node env s), validate_node env s)
  | stepResponse {s : CState} (env : RespEnv) :
      RunStep (.responseStage, s)
        (targetFromResponse (response_node env s), response_node env s)
  | stepEscalate {s : CState} (env : EscalateEnv) :
      RunStep (.escalateStage, s) (.finalizeStage, escalate_node env s)
  | stepFinalize {s s' : CState} : finalizeNodeRel s s' →
      RunStep (.finalizeStage, s) (.terminal, s')

/-- A run starts at the entry edge (START → initialize) on an input state
that carries none of the run-produced logs: the entry point (§6) supplies
only the conversation identity and optional message overrides. -/
def InitialState (s : CState) : Prop :=
  s.actions = [] ∧ s.actions_taken.getD 0 = 0 ∧ s.validate = [] ∧ s.next_node = none

/-- Reachability along engine steps. -/
def Reachable (a b : GNode × CState) : Prop :=
  Relation.ReflTransGen RunStep a b

/-- The hop-loop stages, during which no validation attempt exists yet. -/
def hopLoopStage (n : GNode) : Prop :=
  n = .initStage ∨ n = .procedureStage ∨ n = .planStage ∨ n = .gatherStage ∨
    n = .coverageStage ∨ n = .actionStage

/-- The run-level invariant: the action counter mirrors the action log,
the action log respects its ceiling, the routing token is never the
(unreachable) action token, the validation log respects its ceiling with
room for one more attempt while Draft or Validate is the current stage,
and the Action stage itself is never reached. -/
def RunInv : GNode × CState → Prop
  | (n, s) =>
    s.actions_taken.getD 0 = s.actions.length ∧
    s.actions.length ≤ s.max_actions.getD 1 ∧
    s.next_node ≠ some "action" ∧
    s.validate.length ≤ s.max_validation_retries.getD 1 + 1 ∧
    (hopLoopStage n → s.validate = []) ∧
    ((n = .draftStage ∨ n = .validateStage) →
      s.validate.length ≤ s.max_validation_retries.getD 1) ∧
    (n = .actionStage → False)

/-! Helper lemmas about the embedded stage functions. -/


lemma sanitize_always_attributeError (params : List (String × Value))
    (input_schema : InputSchema) (tool_name : String)
    (injection_map : List (String × Value)) (tool_type : Option String) :
    sanitize_tool_params params input_schema tool_name injection_map tool_type =
      .error (.attributeError "INTERNAL_ACTION") := rfl

lemma dispatchCoverage_plan_iff (resp : CoverageResponse)
    (hop_number max_hops actions_taken max_actions : Nat)
    (enriched : List PlannedTool) (cid : String)
    (h : (dispatchCoverage resp hop_number max_hops actions_taken max_actions enriched cid).assign_next = some "plan") :
    resp.next_action = "gather_more" ∧ hop_number < max_hops := by
  unfold dispatchCoverage at h
  simp only [sanitize_always_attributeError] at h
  (repeat' split at h) <;>
    first
      | (exact ⟨by assumption, by omega⟩)
      | (simp at h)

lemma dispatchCoverage_assign_next_cases (resp : CoverageResponse)
    (hop_number max_hops actions_taken max_actions : Nat)
    (enriched : List PlannedTool) (cid : String) :
    (dispatchCoverage resp hop_number max_hops actions_taken max_actions enriched cid).assign_next = none ∨
    (dispatchCoverage resp hop_number max_hops actions_taken max_actions enriched cid).assign_next = some "plan" ∨
    (dispatchCoverage resp hop_number max_hops actions_taken max_actions enriched cid).assign_next = some "respond" ∨
    (dispatchCoverage resp hop_number max_hops actions_taken max_actions enriched cid).assign_next = some "escalate" := by
  unfold dispatchCoverage
  simp only [sanitize_always_attributeError]
  (repeat' split) <;> simp

lemma dispatchCoverage_exec_respond (resp : CoverageResponse)
    (hop_number max_hops actions_taken max_actions : Nat)
    (enriched : List PlannedTool) (cid : String)
    (hna : resp.next_action = "execute_action") :
    (dispatchCoverage resp hop_number max_hops actions_taken max_actions enriched cid).assign_next = some "respond" := by
  unfold dispatchCoverage
  simp only [sanitize_always_attributeError]
  (repeat' split) <;> simp_all

lemma dispatchCoverage_gather_more_maxhops (resp : CoverageResponse)
    (hop_number max_hops actions_taken max_actions : Nat)
    (enriched : List PlannedTool) (cid : String)
    (hna : resp.next_action = "gather_more") (hge : max_hops ≤ hop_number) :
    (dispatchCoverage resp hop_number max_hops actions_taken max_actions enriched cid).assign_next = some "escalate" ∧
    (dispatchCoverage resp hop_number max_hops actions_taken max_actions enriched cid).assign_reason =
      some (some (maxHopsReason max_hops)) := by
  unfold dispatchCoverage
  simp [hna, hge]

lemma coverage_node_frame (env : CovEnv) (s : CState) :
    frameCore s (coverage_node env s) := by
  unfold coverage_node frameCore
  dsimp only
  (repeat' split) <;> simp

lemma coverage_node_next_cases (env : CovEnv) (s : CState) :
    (coverage_node env s).next_node = s.next_node ∨
    (coverage_node env s).next_node = some "plan" ∨
    (coverage_node env s).next_node = some "respond" ∨
    (coverage_node env s).next_node = some "escalate" := by
  unfold coverage_node
  dsimp only
  split
  · simp
  case h_2 hop heq =>
    split
    case isTrue =>
      split
      case h_1 e ha => simp
      case h_2 resp ha =>
        rcases dispatchCoverage_assign_next_cases resp
            (hop.hop_number.getD ((s.hops.length - 1) + 1)) (s.max_hops.getD 3)
            (s.actions_taken.getD 0) (s.max_actions.getD 1)
            (coverageEnrichedTools hop s) s.conversation_id with h | h | h | h <;>
          simp [h]
    case isFalse => simp

lemma coverage_node_plan_hop (env : CovEnv) (s : CState)
    (hne : s.next_node ≠ some "plan")
    (hp : (coverage_node env s).next_node = some "plan") :
    currentHopNumber s < s.max_hops.getD 3 := by
  unfold coverage_node at hp
  dsimp only at hp
  split at hp
  case h_1 heq => exact absurd hp hne
  case h_2 hop heq =>
    have hlen : (s.hops.length - 1) + 1 = s.hops.length := by
      have : s.hops ≠ [] := by
        intro hE
        rw [hE] at heq
        simp at heq
      have : 0 < s.hops.length := List.length_pos.mpr this
      omega
    split at hp
    case isTrue =>
      split at hp
      case h_1 e ha => simp at hp
      case h_2 resp ha =>
        rcases dispatchCoverage_assign_next_cases resp
            (hop.hop_number.getD ((s.hops.length - 1) + 1)) (s.max_hops.getD 3)
            (s.actions_taken.getD 0) (s.max_actions.getD 1)
            (coverageEnrichedTools hop s) s.conversation_id with h | h | h | h <;>
          simp [h] at hp
        · exact absurd hp hne
        · have := dispatchCoverage_plan_iff resp
            (hop.hop_number.getD ((s.hops.length - 1) + 1)) (s.max_hops.getD 3)
            (s.actions_taken.getD 0) (s.max_actions.getD 1)
            (coverageEnrichedTools hop s) s.conversation_id h
          unfold currentHopNumber
          rw [heq, ← hlen]
          exact this.2
    case isFalse => exact absurd hp hne

lemma coverage_node_no_action (env : CovEnv) (s : CState)
    (hp : (coverage_node env s).next_node = some "action") :
    s.next_node = some "action" := by
  rcases coverage_node_next_cases env s with h | h | h | h <;> rw [h] at hp <;> simp_all

lemma action_node_preserves (env : ActionEnv) (s : CState) :
    (action_node env s).validate = s.validate ∧
    (action_node env s).max_actions = s.max_actions ∧
    (action_node env s).max_validation_retries = s.max_validation_retries ∧
    (action_node env s).response_delivery = s.response_delivery := by
  unfold action_node actionFailure
  dsimp only
  (repeat' split) <;> simp

lemma action_node_cases (env : ActionEnv) (s : CState) :
    ((action_node env s).actions = s.actions ∧
     (action_node env s).actions_taken = s.actions_taken ∧
     (action_node env s).next_node = s.next_node) ∨
    ((action_node env s).actions.length = s.actions.length + 1 ∧
     (action_node env s).actions_taken = some (s.actions_taken.getD 0 + 1) ∧
     ((action_node env s).next_node = some "coverage" ∨
      (action_node env s).next_node = some "escalate")) := by
  unfold action_node actionFailure
  dsimp only
  (repeat' split) <;> simp

lemma draft_node_preserves (env : DraftEnv) (s : CState) :
    (draft_node env s).actions = s.actions ∧
    (draft_node env s).actions_taken = s.actions_taken ∧
    (draft_node env s).validate = s.validate ∧
    (draft_node env s).max_actions = s.max_actions ∧
    (draft_node env s).max_validation_retries = s.max_validation_retries ∧
    (draft_node env s).response_delivery = s.response_delivery := by
  unfold draft_node
  dsimp only
  (repeat' split) <;> simp

lemma draft_node_next (env : DraftEnv) (s : CState) :
    (draft_node env s).next_node = some "validate" ∨
    (draft_node env s).next_node = some "escalate" := by
  unfold draft_node
  dsimp only
  (repeat' split) <;> simp

lemma validate_node_preserves (env : ValidateEnv) (s : CState) :
    (validate_node env s).actions = s.actions ∧
    (validate_node env s).actions_taken = s.actions_taken ∧
    (validate_node env s).max_actions = s.max_actions ∧
    (validate_node env s).max_validation_retries = s.max_validation_retries ∧
    (validate_node env s).response_delivery = s.response_delivery := by
  unfold validate_node
  dsimp only
  (repeat' split) <;> simp

lemma validate_node_appends (env : ValidateEnv) (s : CState) :
    ∃ vd, (validate_node env s).validate = s.validate ++ [vd] := by
  unfold validate_node
  dsimp only
  (repeat' split) <;> exact ⟨_, rfl⟩

lemma validate_node_next_cases (env : ValidateEnv) (s : CState) :
    (validate_node env s).next_node = some "response" ∨
    (validate_node env s).next_node = some "draft" ∨
    (validate_node env s).next_node = some "escalate" := by
  unfold validate_node
  dsimp only
  (repeat' split) <;> simp

lemma validate_node_draft_bound (env : ValidateEnv) (s : CState)
    (h : (validate_node env s).next_node = some "draft") :
    s.validate.length < s.max_validation_retries.getD 1 := by
  unfold validate_node at h
  dsimp only at h
  (repeat' split at h) <;> simp_all

lemma response_node_preserves (env : RespEnv) (s : CState) :
    (response_node env s).actions = s.actions ∧
    (response_node env s).actions_taken = s.actions_taken ∧
    (response_node env s).validate = s.validate ∧
    (response_node env s).max_actions = s.max_actions ∧
    (response_node env s).max_validation_retries = s.max_validation_retries := by
  unfold response_node responseRouting
  dsimp only
  (repeat' split) <;> simp

lemma response_node_next (env : RespEnv) (s : CState) :
    (response_node env s).next_node = some "escalate" ∨
    (response_node env s).next_node = some "finalize" := by
  unfold response_node responseRouting
  dsimp only
  (repeat' split) <;> simp_all

lemma escalate_node_preserves (env : EscalateEnv) (s : CState) :
    (escalate_node env s).actions = s.actions ∧
    (escalate_node env s).actions_taken = s.actions_taken ∧
    (escalate_node env s).validate = s.validate ∧
    (escalate_node env s).max_actions = s.max_actions ∧
    (escalate_node env s).max_validation_retries = s.max_validation_retries ∧
    (escalate_node env s).response_delivery = s.response_delivery := by
  unfold escalate_node
  dsimp only
  (repeat' split) <;> simp

lemma escalate_node_next (env : EscalateEnv) (s : CState) :
    (escalate_node env s).next_node = some "end" ∨
    (escalate_node env s).next_node = some "finalize" := by
  unfold escalate_node
  dsimp only
  (repeat' split) <;> simp

lemma targetFromInit_cases (t : CState) :
    targetFromInit t = .procedureStage ∨ targetFromInit t = .escalateStage := by
  unfold targetFromInit
  split <;> simp

lemma targetFromPlan_cases (t : CState) :
    targetFromPlan t = .gatherStage ∨ targetFromPlan t = .escalateStage := by
  unfold targetFromPlan
  split <;> simp

lemma targetFromGather_cases (t : CState) :
    targetFromGather t = .coverageStage ∨ targetFromGather t = .escalateStage := by
  unfold targetFromGather
  split <;> simp

lemma targetFromCoverage_cases (t : CState) :
    targetFromCoverage t = .planStage ∨ targetFromCoverage t = .draftStage ∨
    targetFromCoverage t = .actionStage ∨ targetFromCoverage t = .escalateStage ∨
    targetFromCoverage t = .terminal := by
  unfold targetFromCoverage
  dsimp only
  (repeat' split) <;> simp

lemma targetFromCoverage_action (t : CState)
    (h : targetFromCoverage t = .actionStage) : t.next_node = some "action" := by
  cases hn : t.next_node <;>
    unfold targetFromCoverage route_from_coverage at h <;>
    rw [hn] at h <;> dsimp only at h <;>
    (repeat' split at h) <;> simp_all

lemma targetFromAction_cases (t : CState) :
    targetFromAction t = .coverageStage ∨ targetFromAction t = .escalateStage := by
  unfold targetFromAction
  split <;> simp

lemma targetFromDraft_cases (t : CState) :
    targetFromDraft t = .validateStage ∨ targetFromDraft t = .escalateStage := by
  unfold targetFromDraft
  split <;> simp

lemma targetFromValidate_cases (t : CState) :
    targetFromValidate t = .responseStage ∨ targetFromValidate t = .draftStage ∨
    targetFromValidate t = .escalateStage ∨ targetFromValidate t = .terminal := by
  unfold targetFromValidate
  dsimp only
  (repeat' split) <;> simp

lemma targetFromValidate_draft (t : CState)
    (h : targetFromValidate t = .draftStage) : t.next_node = some "draft" := by
  cases hn : t.next_node <;>
    unfold targetFromValidate route_from_validate at h <;>
    rw [hn] at h <;> dsimp only at h <;>
    (repeat' split at h) <;> simp_all

lemma targetFromResponse_cases (t : CState) :
    targetFromResponse t = .finalizeStage ∨ targetFromResponse t = .escalateStage := by
  unfold targetFromResponse
  split <;> simp

lemma runInv_of_hopLoopFrame {n : GNode} (n' : GNode) {s s' : CState}
    (hfr : frameCore s s')
    (hnext : s'.next_node ≠ some "action")
    (hinv : RunInv (n, s)) (hval : s.validate = [])
    (hn' : n' ≠ .actionStage) : RunInv (n', s') := by
  obtain ⟨ha, ht, hv, hm, hr, hd⟩ := hfr
  obtain ⟨h1, h2, h3, h4, h5, h6, h7⟩ := hinv
  refine ⟨?_, ?_, ?_, ?_, ?_, ?_, ?_⟩
  · rw [ht, ha, h1]
  · rw [ha, hm]
    exact h2
  · exact hnext
  · rw [hv, hr]
    exact h4
  · intro _
    rw [hv, hval]
  · intro _
    rw [hv, hval, hr]
    simp
  · intro hcontra
    exact hn' hcontra

lemma runStep_preserves_runInv {a b : GNode × CState}
    (hstep : RunStep a b) (hinv : RunInv a) : RunInv b := by
  cases hstep with
  | @stepInit s s' hfr =>
    have hval : s.validate = [] := hinv.2.2.2.2.1 (Or.inl rfl)
    have hnext : s'.next_node ≠ some "action" := by
      rcases hfr.2 with h | h <;> rw [h]
      · exact hinv.2.2.1
      · simp
    rcases targetFromInit_cases s' with ht | ht <;> rw [ht] <;>
      exact runInv_of_hopLoopFrame _ hfr.1 hnext hinv hval (by simp)
  | @stepProcedure s s' hfr =>
    have hval : s.validate = [] := hinv.2.2.2.2.1 (Or.inr (Or.inl rfl))
    have hnext : s'.next_node ≠ some "action" := by
      rcases hfr.2 with h | h <;> rw [h]
      · exact hinv.2.2.1
      · simp
    exact runInv_of_hopLoopFrame _ hfr.1 hnext hinv hval (by simp)
  | @stepPlan s s' hfr =>
    have hval : s.validate = [] := hinv.2.2.2.2.1 (Or.inr (Or.inr (Or.inl rfl)))
    have hnext : s'.next_node ≠ some "action" := by
      rcases hfr.2 with h | h <;> rw [h]
      · exact hinv.2.2.1
      · simp
    rcases targetFromPlan_cases s' with ht | ht <;> rw [ht] <;>
      exact runInv_of_hopLoopFrame _ hfr.1 hnext hinv hval (by simp)
  | @stepGather s s' hfr =>
    have hval : s.validate = [] := hinv.2.2.2.2.1 (Or.inr (Or.inr (Or.inr (Or.inl rfl))))
    have hnext : s'.next_node ≠ some "action" := by
      rcases hfr.2 with h | h <;> rw [h]
      · exact hinv.2.2.1
      · simp
    rcases targetFromGather_cases s' with ht | ht <;> rw [ht] <;>
      exact runInv_of_hopLoopFrame _ hfr.1 hnext hinv hval (by simp)
  | @stepCoverage s env =>
    have hval : s.validate = [] :=
      hinv.2.2.2.2.1 (Or.inr (Or.inr (Or.inr (Or.inr (Or.inl rfl)))))
    have hnext : (coverage_node env s).next_node ≠ some "action" := fun hp =>
      hinv.2.2.1 (coverage_node_no_action env s hp)
    have hn' : targetFromCoverage (coverage_node env s) ≠ .actionStage := fun hT =>
      hinv.2.2.1 (coverage_node_no_action env s (targetFromCoverage_action _ hT))
    exact runInv_of_hopLoopFrame _ (coverage_node_frame env s) hnext hinv hval hn'
  | @stepAction s env =>
    exact absurd rfl (fun h => hinv.2.2.2.2.2.2 h)
  | @stepDraft s env =>
    obtain ⟨h1, h2, h3, h4, h5, h6, h7⟩ := hinv
    obtain ⟨pa, pt, pv, pm, pr, pd⟩ := draft_node_preserves env s
    have hnact : (draft_node env s).next_node ≠ some "action" := by
      rcases draft_node_next env s with h | h <;> rw [h] <;> simp
    have hlen : (draft_node env s).validate.length ≤
        (draft_node env s).max_validation_retries.getD 1 := by
      rw [pv, pr]
      exact h6 (Or.inl rfl)
    rcases targetFromDraft_cases (draft_node env s) with htg | htg <;> rw [htg] <;>
      refine ⟨?_, ?_, ?_, ?_, ?_, ?_, ?_⟩
    · rw [pt, pa, h1]
    · rw [pa, pm]
      exact h2
    · exact hnact
    · rw [pv, pr]
      exact h4
    · intro hl
      simp [hopLoopStage] at hl
    · intro _
      exact hlen
    · intro hcontra
      simp at hcontra
    · rw [pt, pa, h1]
    · rw [pa, pm]
      exact h2
    · exact hnact
    · rw [pv, pr]
      exact h4
    · intro hl
      simp [hopLoopStage] at hl
    · intro hx
      rcases hx with hx | hx <;> simp at hx
    · intro hcontra
      simp at hcontra
  | @stepValidate s env =>
    obtain ⟨h1, h2, h3, h4, h5, h6, h7⟩ := hinv
    obtain ⟨pa, pt, pm, pr, pd⟩ := validate_node_preserves env s
    obtain ⟨vd, hv⟩ := validate_node_appends env s
    have hlen6 : s.validate.length ≤ s.max_validation_retries.getD 1 := h6 (Or.inr rfl)
    have hnact : (validate_node env s).next_node ≠ some "action" := by
      rcases validate_node_next_cases env s with h | h | h <;> rw [h] <;> simp
    have hbound : (validate_node env s).validate.length ≤
        (validate_node env s).max_validation_retries.getD 1 + 1 := by
      rw [hv, pr]
      simp
      omega
    rcases targetFromValidate_cases (validate_node env s) with htg | htg | htg | htg <;>
      rw [htg] <;> refine ⟨?_, ?_, ?_, ?_, ?_, ?_, ?_⟩
    · rw [pt, pa, h1]
    · rw [pa, pm]
      exact h2
    · exact hnact
    · exact hbound
    · intro hl
      simp [hopLoopStage] at hl
    · intro hx
      rcases hx with hx | hx <;> simp at hx
    · intro hcontra
      simp at hcontra
    · rw [pt, pa, h1]
    · rw [pa, pm]
      exact h2
    · exact hnact
    · exact hbound
    · intro hl
      simp [hopLoopStage] at hl
    · intro _
      have hdr := validate_node_draft_bound env s (targetFromValidate_draft _ htg)
      rw [hv, pr]
      simp
      omega
    · intro hcontra
      simp at hcontra
    · rw [pt, pa, h1]
    · rw [pa, pm]
      exact h2
    · exact hnact
    · exact hbound
    · intro hl
      simp [hopLoopStage] at hl
    · intro hx
      rcases hx with hx | hx <;> simp at hx
    · intro hcontra
      simp at hcontra
    · rw [pt, pa, h1]
    · rw [pa, pm]
      exact h2
    · exact hnact
    · exact hbound
    · intro hl
      simp [hopLoopStage] at hl
    · intro hx
      rcases hx with hx | hx <;> simp at hx
    · intro hcontra
      simp at hcontra
  | @stepResponse s env =>
    obtain ⟨h1, h2, h3, h4, h5, h6, h7⟩ := hinv
    obtain ⟨pa, pt, pv, pm, pr⟩ := response_node_preserves env s
    have hnact : (response_node env s).next_node ≠ some "action" := by
      rcases response_node_next env s with h | h <;> rw [h] <;> simp
    rcases targetFromResponse_cases (response_node env s) with htg | htg <;> rw [htg] <;>
      refine ⟨?_, ?_, ?_, ?_, ?_, ?_, ?_⟩
    · rw [pt, pa, h1]
    · rw [pa, pm]
      exact h2
    · exact hnact
    · rw [pv, pr]
      exact h4
    · intro hl
      simp [hopLoopStage] at hl
    · intro hx
      rcases hx with hx | hx <;> simp at hx
    · intro hcontra
      simp at hcontra
    · rw [pt, pa, h1]
    · rw [pa, pm]
      exact h2
    · exact hnact
    · rw [pv, pr]
      exact h4
    · intro hl
      simp [hopLoopStage] at hl
    · intro hx
      rcases hx with hx | hx <;> simp at hx
    · intro hcontra
      simp at hcontra
  | @stepEscalate s env =>
    obtain ⟨h1, h2, h3, h4, h5, h6, h7⟩ := hinv
    obtain ⟨pa, pt, pv, pm, pr, pd⟩ := escalate_node_preserves env s
    have hnact : (escalate_node env s).next_node ≠ some "action" := by
      rcases escalate_node_next env s with h | h <;> rw [h] <;> simp
    refine ⟨?_, ?_, ?_, ?_, ?_, ?_, ?_⟩
    · rw [pt, pa, h1]
    · rw [pa, pm]
      exact h2
    · exact hnact
    · rw [pv, pr]
      exact h4
    · intro hl
      simp [hopLoopStage] at hl
    · intro hx
      rcases hx with hx | hx <;> simp at hx
    · intro hcontra
      simp at hcontra
  | @stepFinalize s s' hfr =>
    obtain ⟨⟨ha, ht, hv, hm, hr, hd⟩, hnx⟩ := hfr
    obtain ⟨h1, h2, h3, h4, h5, h6, h7⟩ := hinv
    refine ⟨?_, ?_, ?_, ?_, ?_, ?_, ?_⟩
    · rw [ht, ha, h1]
    · rw [ha, hm]
      exact h2
    · rw [hnx]
      simp
    · rw [hv, hr]
      exact h4
    · intro hl
      simp [hopLoopStage] at hl
    · intro hx
      rcases hx with hx | hx <;> simp at hx
    · intro hcontra
      simp at hcontra

lemma runInv_initial {s : CState} (h : InitialState s) : RunInv (.initStage, s) := by
  obtain ⟨ha, ht, hv, hn⟩ := h
  refine ⟨?_, ?_, ?_, ?_, ?_, ?_, ?_⟩
  · rw [ht, ha]
    rfl
  · rw [ha]
    simp
  · rw [hn]
    simp
  · rw [hv]
    simp
  · intro _
    exact hv
  · intro hx
    rcases hx with hx | hx <;> simp at hx
  · intro hcontra
    simp at hcontra

lemma runInv_reachable {a b : GNode × CState} (h : Reachable a b)
    (ha : RunInv a) : RunInv b := by
  induction h with
  | refl => exact ha
  | tail _ hstep ih => exact runStep_preserves_runInv hstep ih

/-! Concrete fixtures used by witnesses and counterexamples. -/

/-- A minimal user message. -/
def msgW : Message := { role := "user", content := "hi" }

/-- A first hop with no plan data. -/
def hopW : HopData := { hop_number := some 1 }

/-- A minimal well-formed state entering the hop loop. -/
def baseState : CState :=
  { conversation_id := "c1", messages := [msgW], subject := none,
    melvin_admin_id := some "a1", available_tools := [],
    procedure_required_action_tools := [], hops := [hopW], max_hops := none,
    actions := [], max_actions := none, actions_taken := none,
    max_validation_retries := none, draft := none, validate := [],
    escalate := none, response_delivery := none, next_node := none,
    escalation_reason := none, response := "", error := none }

/-- A coverage judgement asking for more data. -/
def respGatherW : CoverageResponse :=
  { data_sufficient := true, missing_data := [], reasoning := "need more",
    next_action := "gather_more" }

/-- An oracle whose judgement is always `gather_more`. -/
def envGatherW : CovEnv :=
  { gen := fun _ => .ok respGatherW, jsValidate := fun _ _ => .ok () }

/-- An available tool carrying a schema, named like the ticket-linking tool. -/
def availToolW : AvailableTool :=
  { name := "match_and_link_conversation_to_ticket", description := "links tickets",
    inputSchema := { properties := [("conversation_id", .obj [])], required := [] } }

/-- The ticket-linking tool as planned by Plan and enriched with its schema. -/
def plannedToolW : PlannedTool :=
  { tool_name := "match_and_link_conversation_to_ticket", parameters := [],
    reasoning := "link it", tool_schema := some availToolW }

/-- A coverage judgement choosing to execute the ticket-linking tool. -/
def respExecW : CoverageResponse :=
  { data_sufficient := true, missing_data := [], reasoning := "act",
    next_action := "execute_action",
    action_decision := some { action_tool_name := "match_and_link_conversation_to_ticket",
                              reasoning := "link", parameters := [] } }

/-- An oracle whose judgement is always `execute_action` on the schema-carrying tool. -/
def envExecW : CovEnv :=
  { gen := fun _ => .ok respExecW, jsValidate := fun _ _ => .ok () }

/-- An oracle whose structured output is always malformed. -/
def envMalformedW : CovEnv :=
  { gen := fun _ => .malformed "missing field", jsValidate := fun _ _ => .ok () }

/-- A hop whose plan proposes the ticket-linking action tool. -/
def hopExecW : HopData :=
  { hop_number := some 1,
    plan := some { reasoning := some "match the ticket", action_tool_calls := [plannedToolW] } }

/-- `baseState` with the exec-planning hop and the schema-carrying tool available. -/
def execState : CState :=
  { baseState with hops := [hopExecW], available_tools := [availToolW] }

/-- The enriched planned-tool list of `execState`'s hop. -/
def toolsW : List PlannedTool := coverageEnrichedTools hopExecW execState

/-- An oracle always returning an `execute_action` judgement whose chosen
tool is planned and carries a tool schema. -/
def ExecSchemaOracle (env : CovEnv) (tools : List PlannedTool) : Prop :=
  ∀ c : GenCall, ∃ r d tl,
    env.gen c = .ok r ∧ r.next_action = "execute_action" ∧
    r.action_decision = some d ∧
    tools.find? (fun t => t.tool_name = d.action_tool_name) = some tl ∧
    tl.tool_schema.isSome

lemma analyze_exec_schema_error {env : CovEnv} {tools : List PlannedTool}
    (ho : ExecSchemaOracle env tools) (hop_number max_hops : Nat) (cid : String) :
    ∀ (remaining attempt : Nat) (pt qt : Option String) (tr : List GenCall),
      (analyzeCoverageGo env hop_number max_hops tools cid remaining attempt pt qt tr).fst =
        .error (.valueError "Action parameter validation failed: INTERNAL_ACTION") := by
  intro remaining
  induction remaining with
  | zero =>
    intro attempt pt qt tr
    obtain ⟨r, d, tl, hg, hna, hd, hf, hs⟩ := ho ⟨attempt, pt, qt⟩
    obtain ⟨ts, hts⟩ := Option.isSome_iff_exists.mp hs
    unfold analyzeCoverageGo
    dsimp only
    rw [hg]
    dsimp only
    rw [hd]
    dsimp only
    rw [if_pos hna, hf]
    dsimp only
    rw [hts]
    dsimp only
    rw [sanitize_always_attributeError]
    rfl
  | succ r ih =>
    intro attempt pt qt tr
    obtain ⟨resp, d, tl, hg, hna, hd, hf, hs⟩ := ho ⟨attempt, pt, qt⟩
    obtain ⟨ts, hts⟩ := Option.isSome_iff_exists.mp hs
    unfold analyzeCoverageGo
    dsimp only
    rw [hg]
    dsimp only
    rw [hd]
    dsimp only
    rw [if_pos hna, hf]
    dsimp only
    rw [hts]
    dsimp only
    rw [sanitize_always_attributeError]
    exact ih _ _ _ _

lemma coverage_node_exec_schema {env : CovEnv} {s : CState} {hop : HopData}
    (hl : s.hops.getLast? = some hop) (hc : contextValid s)
    (ho : ExecSchemaOracle env (coverageEnrichedTools hop s)) :
    (coverage_node env s).next_node = some "escalate" ∧
    (coverage_node env s).error =
      some (covFailMsg (.valueError "Action parameter validation failed: INTERNAL_ACTION")) := by
  unfold coverage_node
  dsimp only
  rw [hl]
  dsimp only
  rw [if_pos hc]
  unfold analyze_coverage
  rw [analyze_exec_schema_error ho _ _ _ _ _ _ _ _]
  exact ⟨rfl, rfl⟩

/-- C1: for every call of the Coverage stage, a `gather_more` judgement at
or past the hop ceiling is overridden to escalate with the standard
"exceeded maximum hops" reason (whether the override fires inside
`_analyze_coverage` or in the routing block), and Coverage never assigns
the `plan` routing token once the hop number has reached `max_hops`; the
embedding is a pure function of its inputs, so repeated calls with the
same inputs yield the same override. -/
theorem C1_coverage_max_hops_override :
    (∀ (env : CovEnv) (s : CState), s.next_node ≠ some "plan" →
      (coverage_node env s).next_node = some "plan" →
      currentHopNumber s < s.max_hops.getD 3) ∧
    (∀ (resp : CoverageResponse) (hop_number max_hops actions_taken max_actions : Nat)
        (enriched : List PlannedTool) (cid : String),
      resp.next_action = "gather_more" → max_hops ≤ hop_number →
      (dispatchCoverage (applyMaxHopsOverride hop_number max_hops resp) hop_number max_hops
          actions_taken max_actions enriched cid).assign_next = some "escalate" ∧
      (dispatchCoverage (applyMaxHopsOverride hop_number max_hops resp) hop_number max_hops
          actions_taken max_actions enriched cid).assign_reason =
        some (some (maxHopsReason max_hops))) := by
  constructor
  · intro env s hne hp
    exact coverage_node_plan_hop env s hne hp
  · intro resp hop_number max_hops actions_taken max_actions enriched cid hna hge
    by_cases hds : resp.data_sufficient
    · have hov : applyMaxHopsOverride hop_number max_hops resp = resp := by
        unfold applyMaxHopsOverride
        simp [hds]
      rw [hov]
      exact dispatchCoverage_gather_more_maxhops resp hop_number max_hops actions_taken
        max_actions enriched cid hna hge
    · have hov : applyMaxHopsOverride hop_number max_hops resp =
          { resp with next_action := "escalate",
                      escalation_reason := some (maxHopsReason max_hops) } := by
        unfold applyMaxHopsOverride
        simp only [Bool.not_eq_true] at hds
        simp [hds, hge]
      rw [hov]
      unfold dispatchCoverage
      simp

theorem C1_witness :
    (baseState.next_node ≠ some "plan" ∧
     (coverage_node envGatherW baseState).next_node = some "plan" ∧
     currentHopNumber baseState < baseState.max_hops.getD 3) ∧
    (respGatherW.next_action = "gather_more" ∧ 3 ≤ 3 ∧
     (dispatchCoverage (applyMaxHopsOverride 3 3 respGatherW) 3 3 0 1 [] "c1").assign_next =
       some "escalate") := by
  refine ⟨⟨by decide, by decide, ?_⟩, rfl, Nat.le_refl 3, ?_⟩
  · exact C1_coverage_max_hops_override.1 envGatherW baseState (by decide) (by decide)
  · exact (C1_coverage_max_hops_override.2 respGatherW 3 3 0 1 [] "c1" rfl (Nat.le_refl 3)).1

/-- The action decision inside `respExecW`. -/
def decisionW : ActionDecision :=
  { action_tool_name := "match_and_link_conversation_to_ticket",
    reasoning := "link", parameters := [] }

/-- `plannedToolW` after schema enrichment. -/
def enrichedToolW : PlannedTool :=
  { plannedToolW with tool_schema := some availToolW }

/-- C2: `sanitize_tool_params` unconditionally evaluates the missing
`ToolType.INTERNAL_ACTION` / `ToolType.EXTERNAL_ACTION` enum members and
therefore always raises AttributeError; consequently every
`execute_action` judgement is routed to respond by the routing block
(never to action), Coverage never assigns the `action` token at all, and
when every judgement attempt chooses a planned, schema-carrying tool the
retry loop exhausts and coverage_node sets the error and routes to
escalate. -/
theorem C2_action_unreachable :
    (∀ (params : List (String × Value)) (input_schema : InputSchema) (tool_name : String)
        (injection_map : List (String × Value)) (tool_type : Option String),
      sanitize_tool_params params input_schema tool_name injection_map tool_type =
        .error (.attributeError "INTERNAL_ACTION")) ∧
    (∀ (resp : CoverageResponse) (hop_number max_hops actions_taken max_actions : Nat)
        (enriched : List PlannedTool) (cid : String),
      resp.next_action = "execute_action" →
      (dispatchCoverage resp hop_number max_hops actions_taken max_actions enriched cid).assign_next =
        some "respond") ∧
    (∀ (env : CovEnv) (s : CState), s.next_node ≠ some "action" →
      (coverage_node env s).next_node ≠ some "action") ∧
    (∀ (env : CovEnv) (s : CState) (hop : HopData),
      s.hops.getLast? = some hop → contextValid s →
      ExecSchemaOracle env (coverageEnrichedTools hop s) →
      (coverage_node env s).next_node = some "escalate" ∧
      (coverage_node env s).error =
        some (covFailMsg (.valueError "Action parameter validation failed: INTERNAL_ACTION"))) := by
  refine ⟨sanitize_always_attributeError, dispatchCoverage_exec_respond, ?_, ?_⟩
  · intro env s hne hp
    exact hne (coverage_node_no_action env s hp)
  · intro env s hop hl hc ho
    exact coverage_node_exec_schema hl hc ho

theorem C2_witness :
    (sanitize_tool_params [] ⟨[], []⟩ "t" [] none =
      .error (.attributeError "INTERNAL_ACTION")) ∧
    (respExecW.next_action = "execute_action" ∧
     (dispatchCoverage respExecW 1 3 0 1 [] "c1").assign_next = some "respond") ∧
    (baseState.next_node ≠ some "action" ∧
     (coverage_node envGatherW baseState).next_node ≠ some "action") ∧
    (execState.hops.getLast? = some hopExecW ∧ contextValid execState ∧
     (coverage_node envExecW execState).next_node = some "escalate") := by
  refine ⟨C2_action_unreachable.1 [] ⟨[], []⟩ "t" [] none,
    ⟨rfl, C2_action_unreachable.2.1 respExecW 1 3 0 1 [] "c1" rfl⟩,
    ⟨by decide, C2_action_unreachable.2.2.1 envGatherW baseState (by decide)⟩,
    ⟨rfl, rfl, ?_⟩⟩
  refine (C2_action_unreachable.2.2.2 envExecW execState hopExecW rfl rfl ?_).1
  intro c
  exact ⟨respExecW, decisionW, enrichedToolW, rfl, rfl, rfl, rfl, rfl⟩

/-- C3: the spec says schema-invalid action parameters are retried at most
once, but the bound `max_param_retries = 1` is dead code — the
parameter-failure branch re-raises only when the attempt index reaches
`max_pydantic_retries = 2`, so a judgement whose parameters fail
validation on every attempt triggers three generation calls (two
parameter retries), each retry carrying the concrete error text; the
exhausted loop raises, and coverage_node sets the error and routes to
escalate. -/
theorem C3_param_retry_bound_bug :
    (analyze_coverage envExecW 1 3 toolsW "c1").snd.length = max_pydantic_retries + 1 ∧
    max_param_retries + 1 < (analyze_coverage envExecW 1 3 toolsW "c1").snd.length ∧
    (analyze_coverage envExecW 1 3 toolsW "c1").fst =
      .error (.valueError "Action parameter validation failed: INTERNAL_ACTION") ∧
    (analyze_coverage envExecW 1 3 toolsW "c1").snd =
      [⟨0, none, none⟩,
       ⟨1, none, some "Parameter error: INTERNAL_ACTION"⟩,
       ⟨2, none, some "Parameter error: INTERNAL_ACTION"⟩] ∧
    (analyze_coverage envMalformedW 1 3 [] "c1").snd.length = max_pydantic_retries + 1 ∧
    (analyze_coverage envMalformedW 1 3 [] "c1").fst =
      .error (.pydanticValidationError "missing field") ∧
    (coverage_node envExecW execState).next_node = some "escalate" ∧
    (coverage_node envExecW execState).error =
      some (covFailMsg (.valueError "Action parameter validation failed: INTERNAL_ACTION")) := by
  refine ⟨rfl, by decide, rfl, rfl, rfl, rfl, rfl, rfl⟩

lemma validate_node_appends_full (env : ValidateEnv) (s : CState) :
    ∃ vd, (validate_node env s).validate = s.validate ++ [vd] ∧
      vd.retry_count = s.validate.length := by
  unfold validate_node
  dsimp only
  (repeat' split) <;> exact ⟨_, rfl, rfl⟩

lemma validate_node_response_only_if (env : ValidateEnv) (s : CState)
    (h : (validate_node env s).next_node = some "response") :
    ∃ raw noteOk, env = .ok raw noteOk ∧ ValidationResponse.parse raw = .ok true := by
  unfold validate_node at h
  dsimp only at h
  split at h
  · simp at h
  · cases env with
    | raise m => simp at h
    | ok raw noteOk =>
      refine ⟨raw, noteOk, rfl, ?_⟩
      dsimp only at h
      split at h
      case h_1 e he => simp at h
      case h_2 b hb =>
        split at h
        case isTrue hbt =>
          rw [hb, hbt]
        case isFalse hbf =>
          split at h <;> simp at h

/-- C4: every call of the Validate stage appends exactly one record to the
validation log, with the attempt count taken from the log length before
the call; on a parsed verdict the routing is response iff
`overall_passed`, draft (carrying the raw verdict in the appended record)
when it failed with retries remaining, escalate with the standard reason
when it failed with retries exhausted; response is reached only from a
passing verdict; and along every run the log length never exceeds
`max_validation_retries + 1`. -/
theorem C4_validate_state_machine :
    (∀ (env : ValidateEnv) (s : CState), ∃ vd,
      (validate_node env s).validate = s.validate ++ [vd] ∧
      vd.retry_count = s.validate.length) ∧
    (∀ (s : CState) (raw : Value) (noteOk : Bool) (b : Bool),
      s.response ≠ "" → ValidationResponse.parse raw = .ok b →
      (b = true → (validate_node (.ok raw noteOk) s).next_node = some "response") ∧
      (b = false → s.validate.length < s.max_validation_retries.getD 1 →
        (validate_node (.ok raw noteOk) s).next_node = some "draft" ∧
        ∃ vd, (validate_node (.ok raw noteOk) s).validate = s.validate ++ [vd] ∧
          vd.validation_response = some raw ∧ vd.next_action = "draft") ∧
      (b = false → s.max_validation_retries.getD 1 ≤ s.validate.length →
        (validate_node (.ok raw noteOk) s).next_node = some "escalate" ∧
        (validate_node (.ok raw noteOk) s).escalation_reason =
          some (validationFailReason (s.max_validation_retries.getD 1)))) ∧
    (∀ (env : ValidateEnv) (s : CState),
      (validate_node env s).next_node = some "response" →
      ∃ raw noteOk, env = .ok raw noteOk ∧ ValidationResponse.parse raw = .ok true) ∧
    (∀ (s0 : CState) (n : GNode) (s : CState), InitialState s0 →
      Reachable (.initStage, s0) (n, s) →
      s.validate.length ≤ s.max_validation_retries.getD 1 + 1) := by
  refine ⟨validate_node_appends_full, ?_, validate_node_response_only_if, ?_⟩
  · intro s raw noteOk b hresp hparse
    refine ⟨?_, ?_, ?_⟩
    · intro hb
      subst hb
      unfold validate_node
      dsimp only
      rw [if_neg hresp]
      simp only [hparse]
      simp
    · intro hb hlt
      subst hb
      unfold validate_node
      dsimp only
      rw [if_neg hresp]
      simp only [hparse]
      simp [hlt]
    · intro hb hge
      subst hb
      unfold validate_node
      dsimp only
      rw [if_neg hresp]
      simp only [hparse]
      simp [Nat.not_lt.mpr hge]
  · intro s0 n s h0 hr
    exact (runInv_reachable hr (runInv_initial h0)).2.2.2.1

/-- A state about to run Validate on a nonempty draft reply. -/
def respState : CState :=
  { baseState with response := "Hello!", next_node := some "response" }

/-- A passing raw verdict. -/
def verdictTrueW : Value := .obj [("overall_passed", .bool true)]

/-- A failing raw verdict. -/
def verdictFalseW : Value := .obj [("overall_passed", .bool false)]

/-- A prior failed validation attempt. -/
def vdFailedW : ValidateData :=
  { validation_response := some verdictFalseW, overall_passed := false,
    validation_note_added := false, escalation_reason := none,
    next_action := "draft", retry_count := 0 }

/-- `respState` after one failed validation attempt. -/
def failedOnceState : CState := { respState with validate := [vdFailedW] }

theorem C4_witness :
    (∃ vd, (validate_node (.ok verdictTrueW true) respState).validate =
        respState.validate ++ [vd] ∧ vd.retry_count = respState.validate.length) ∧
    (validate_node (.ok verdictTrueW true) respState).next_node = some "response" ∧
    (validate_node (.ok verdictFalseW true) respState).next_node = some "draft" ∧
    ((validate_node (.ok verdictFalseW true) failedOnceState).next_node = some "escalate" ∧
     (validate_node (.ok verdictFalseW true) failedOnceState).escalation_reason =
       some (validationFailReason 1)) ∧
    (∃ raw noteOk, ValidateEnv.ok verdictTrueW true = .ok raw noteOk ∧
      ValidationResponse.parse raw = .ok true) ∧
    baseState.validate.length ≤ baseState.max_validation_retries.getD 1 + 1 := by
  refine ⟨C4_validate_state_machine.1 (.ok verdictTrueW true) respState,
    (C4_validate_state_machine.2.1 respState verdictTrueW true true (by decide) rfl).1 rfl,
    ((C4_validate_state_machine.2.1 respState verdictFalseW true false (by decide) rfl).2.1
      rfl (by decide)).1,
    (C4_validate_state_machine.2.1 failedOnceState verdictFalseW true false (by decide)
      rfl).2.2 rfl (by decide),
    C4_validate_state_machine.2.2.1 (.ok verdictTrueW true) respState
      ((C4_validate_state_machine.2.1 respState verdictTrueW true true (by decide) rfl).1 rfl),
    C4_validate_state_machine.2.2.2 baseState .initStage baseState
      ⟨rfl, rfl, rfl, rfl⟩ Relation.ReflTransGen.refl⟩

/-- C5: along every run, `actions_taken` equals the action-log length and
the log length never exceeds `max_actions`; the Action stage appends
exactly one record and increments the counter by exactly one whenever its
tool call runs (success or failure alike); and the Coverage routing block
answers respond — which the engine maps to Draft — for an
`execute_action` judgement once `actions_taken` has reached `max_actions`. -/
theorem C5_action_log_invariant :
    (∀ (s0 : CState) (n : GNode) (s : CState), InitialState s0 →
      Reachable (.initStage, s0) (n, s) →
      s.actions_taken.getD 0 = s.actions.length ∧
      s.actions.length ≤ s.max_actions.getD 1) ∧
    (∀ (env : ActionEnv) (s : CState) (hop : HopData) (cov : CoverageData)
        (d : ActionDecision),
      s.hops.getLast? = some hop → hop.coverage = some cov →
      cov.coverage_response.action_decision = some d → d.action_tool_name ≠ "" →
      (action_node env s).actions.length = s.actions.length + 1 ∧
      (action_node env s).actions_taken = some (s.actions_taken.getD 0 + 1)) ∧
    (∀ (resp : CoverageResponse) (hop_number max_hops actions_taken max_actions : Nat)
        (enriched : List PlannedTool) (cid : String),
      resp.next_action = "execute_action" → max_actions ≤ actions_taken →
      (dispatchCoverage resp hop_number max_hops actions_taken max_actions enriched cid).assign_next =
        some "respond") ∧
    (∀ t : CState, t.next_node = some "respond" → route_from_coverage t = "draft") := by
  refine ⟨?_, ?_, ?_, ?_⟩
  · intro s0 n s h0 hr
    have h := runInv_reachable hr (runInv_initial h0)
    exact ⟨h.1, h.2.1⟩
  · intro env s hop cov d hl hcov hd hname
    unfold action_node actionFailure
    dsimp only
    rw [hl]
    dsimp only
    rw [hcov]
    dsimp only
    rw [hd]
    dsimp only
    rw [if_neg hname]
    (repeat' split) <;> simp
  · intro resp hop_number max_hops actions_taken max_actions enriched cid hna _
    exact dispatchCoverage_exec_respond resp hop_number max_hops actions_taken
      max_actions enriched cid hna
  · intro t ht
    unfold route_from_coverage
    rw [ht]
    rfl

/-- The coverage record of `respExecW`, as stored into the hop. -/
def covDataExecW : CoverageData :=
  { coverage_response := respExecW, next_node := "action" }

/-- A hop carrying the exec plan and the stored exec coverage record. -/
def hopActW : HopData := { hopExecW with coverage := some covDataExecW }

/-- `execState` positioned at the Action stage. -/
def actStateW : CState := { execState with hops := [hopActW] }

/-- An action oracle whose tool call succeeds with an object result. -/
def actEnvOkW : ActionEnv := { call := .ok (.obj []), jsonLoads := fun _ => none }

/-- A state whose routing token is respond. -/
def respondTokenState : CState := { baseState with next_node := some "respond" }

theorem C5_witness :
    (baseState.actions_taken.getD 0 = baseState.actions.length ∧
     baseState.actions.length ≤ baseState.max_actions.getD 1) ∧
    ((action_node actEnvOkW actStateW).actions.length = actStateW.actions.length + 1 ∧
     (action_node actEnvOkW actStateW).actions_taken =
       some (actStateW.actions_taken.getD 0 + 1)) ∧
    (dispatchCoverage respExecW 1 3 1 1 [] "c1").assign_next = some "respond" ∧
    route_from_coverage respondTokenState = "draft" := by
  refine ⟨C5_action_log_invariant.1 baseState .initStage baseState ⟨rfl, rfl, rfl, rfl⟩
      Relation.ReflTransGen.refl,
    C5_action_log_invariant.2.1 actEnvOkW actStateW hopActW covDataExecW decisionW
      rfl rfl rfl (by decide),
    C5_action_log_invariant.2.2.1 respExecW 1 3 1 1 [] "c1" rfl (Nat.le_refl 1),
    C5_action_log_invariant.2.2.2 respondTokenState rfl⟩

/-- A tool result whose text payload is a JSON array: the review policy's
`parsed.get` then raises AttributeError inside action_node's try. -/
def weirdResultW : Value := .list [.obj [("text", .str "[1, 2]")]]

/-- An action oracle whose call succeeds with `weirdResultW` and whose
`json.loads` parses the payload to a list (as the real json.loads does
for "[1, 2]"). -/
def actEnvWeirdW : ActionEnv :=
  { call := .ok weirdResultW, jsonLoads := fun _ => some (.list [.num 1, .num 2]) }

/-- A failing action oracle. -/
def actEnvFailW : ActionEnv := { call := .error "boom", jsonLoads := fun _ => none }

/-- C6 counterexample: an execution of the Action stage whose tool call
succeeds but whose routing token is escalate, not coverage — the review
policy's AttributeError (ticket-linking result whose text payload parses
to a non-dict) lands in the failure branch. -/
theorem C6_counterexample :
    actEnvWeirdW.call = .ok weirdResultW ∧
    (action_node actEnvWeirdW actStateW).next_node = some "escalate" ∧
    ¬ (action_node actEnvWeirdW actStateW).next_node = some "coverage" := by
  refine ⟨rfl, rfl, by decide⟩

/-- C6 (amended): when the tool call succeeds and the review-policy
computation itself returns (it raises only for the ticket-linking tool on
a text payload that parses to a non-dict), the Action stage routes to
coverage — never directly to draft; when the tool call raises, exactly one
failed record with `requires_review = true` is appended, the stage
escalates with a reason naming the failed tool, the engine edge goes to
Escalate, and the delivery record stays untouched through Action and
Escalate, so no user-visible reply is sent on that path. -/
theorem C6_action_routing :
    (∀ (env : ActionEnv) (s : CState) (hop : HopData) (cov : CoverageData)
        (d : ActionDecision) (r : Value) (b : Bool),
      s.hops.getLast? = some hop → hop.coverage = some cov →
      cov.coverage_response.action_decision = some d → d.action_tool_name ≠ "" →
      env.call = .ok r →
      action_requires_review env.jsonLoads d.action_tool_name r = .ok b →
      (action_node env s).next_node = some "coverage" ∧
      route_from_action (action_node env s) = "coverage") ∧
    (∀ (env : ActionEnv) (s : CState) (hop : HopData) (cov : CoverageData)
        (d : ActionDecision) (msg : String),
      s.hops.getLast? = some hop → hop.coverage = some cov →
      cov.coverage_response.action_decision = some d → d.action_tool_name ≠ "" →
      env.call = .error msg →
      (∃ e, (action_node env s).actions = s.actions ++ [e] ∧
        e.success = false ∧ e.requires_review = true ∧
        e.tool_name = d.action_tool_name) ∧
      (action_node env s).next_node = some "escalate" ∧
      (action_node env s).escalation_reason =
        some ("Action tool failed: " ++ d.action_tool_name ++ ". Error: " ++
          ("Action tool execution failed: " ++ msg) ++ ". Human review required.") ∧
      route_from_action (action_node env s) = "escalate" ∧
      (action_node env s).response_delivery = s.response_delivery) ∧
    (∀ (env : EscalateEnv) (s : CState),
      (escalate_node env s).response_delivery = s.response_delivery) := by
  refine ⟨?_, ?_, ?_⟩
  · intro env s hop cov d r b hl hcov hd hname hcall hrev
    unfold action_node
    dsimp only
    rw [hl]
    dsimp only
    rw [hcov]
    dsimp only
    rw [hd]
    dsimp only
    rw [if_neg hname, hcall]
    dsimp only
    rw [hrev]
    exact ⟨rfl, rfl⟩
  · intro env s hop cov d msg hl hcov hd hname hcall
    unfold action_node actionFailure
    dsimp only
    rw [hl]
    dsimp only
    rw [hcov]
    dsimp only
    rw [hd]
    dsimp only
    rw [if_neg hname, hcall]
    dsimp only
    exact ⟨⟨_, rfl, rfl, rfl, rfl⟩, rfl, rfl, rfl, rfl⟩
  · intro env s
    exact (escalate_node_preserves env s).2.2.2.2.2

theorem C6_witness :
    (actEnvOkW.call = .ok (.obj []) ∧
     (action_node actEnvOkW actStateW).next_node = some "coverage" ∧
     route_from_action (action_node actEnvOkW actStateW) = "coverage") ∧
    (actEnvFailW.call = .error "boom" ∧
     (action_node actEnvFailW actStateW).next_node = some "escalate" ∧
     route_from_action (action_node actEnvFailW actStateW) = "escalate" ∧
     (action_node actEnvFailW actStateW).response_delivery = none) ∧
    (escalate_node ⟨.added⟩ baseState).response_delivery = none := by
  have h1 := C6_action_routing.1 actEnvOkW actStateW hopActW covDataExecW decisionW
    (.obj []) true rfl rfl rfl (by decide) rfl rfl
  have h2 := C6_action_routing.2.1 actEnvFailW actStateW hopActW covDataExecW decisionW
    "boom" rfl rfl rfl (by decide) rfl
  have h3 := C6_action_routing.2.2 ⟨.added⟩ baseState
  exact ⟨⟨rfl, h1.1, h1.2⟩, ⟨rfl, h2.2.1, h2.2.2.2.1, h2.2.2.2.2⟩, h3⟩

/-- C7: every failed action's record requires review; the fixed allow-list
of tools never requires review; the ticket-linking tool requires review
exactly when the `match_found` field parsed out of its structured text
result is true, defaulting to requiring review when the payload does not
parse; every other tool requires review. -/
theorem C7_requires_review_policy :
    (∀ (env : ActionEnv) (s : CState) (hop : HopData) (cov : CoverageData)
        (d : ActionDecision) (msg : String),
      s.hops.getLast? = some hop → hop.coverage = some cov →
      cov.coverage_response.action_decision = some d → d.action_tool_name ≠ "" →
      env.call = .error msg →
      ∃ e, (action_node env s).actions = s.actions ++ [e] ∧ e.requires_review = true) ∧
    (∀ (t : String), NO_ESCALATION_TOOLS.contains t = true →
      ∀ (jl : String → Option Value) (r : Value),
        action_requires_review jl t r = .ok false) ∧
    (∀ (jl : String → Option Value) (fields : List (String × Value)) (rest : List Value)
        (text : String) (pf : List (String × Value)) (b : Bool),
      (alistGet fields "text").getD (.str "") = .str text →
      jl text = some (.obj pf) →
      alistGet pf "match_found" = some (.bool b) →
      action_requires_review jl "match_and_link_conversation_to_ticket"
        (.list (.obj fields :: rest)) = .ok b) ∧
    (∀ (jl : String → Option Value) (fields : List (String × Value)) (rest : List Value)
        (text : String),
      (alistGet fields "text").getD (.str "") = .str text →
      jl text = none →
      action_requires_review jl "match_and_link_conversation_to_ticket"
        (.list (.obj fields :: rest)) = .ok true) ∧
    (∀ (t : String), NO_ESCALATION_TOOLS.contains t = false →
      t ≠ "match_and_link_conversation_to_ticket" →
      ∀ (jl : String → Option Value) (r : Value),
        action_requires_review jl t r = .ok true) := by
  refine ⟨?_, ?_, ?_, ?_, ?_⟩
  · intro env s hop cov d msg hl hcov hd hname hcall
    unfold action_node actionFailure
    dsimp only
    rw [hl]
    dsimp only
    rw [hcov]
    dsimp only
    rw [hd]
    dsimp only
    rw [if_neg hname, hcall]
    exact ⟨_, rfl, rfl⟩
  · intro t ht jl r
    have ht2 : t ∈ NO_ESCALATION_TOOLS := by simpa using ht
    unfold action_requires_review
    simp [ht2]
  · intro jl fields rest text pf b htext hparse hmf
    unfold action_requires_review
    rw [if_neg (by decide), if_pos rfl]
    dsimp only
    rw [htext]
    dsimp only
    rw [hparse]
    dsimp only
    rw [hmf]
    rfl
  · intro jl fields rest text htext hparse
    unfold action_requires_review
    rw [if_neg (by decide), if_pos rfl]
    dsimp only
    rw [htext]
    dsimp only
    rw [hparse]
  · intro t ht hne jl r
    have ht2 : t ∉ NO_ESCALATION_TOOLS := by simpa using ht
    unfold action_requires_review
    simp only [if_neg (by simpa using ht), if_neg hne]
    (repeat' split) <;> simp_all

theorem C7_witness :
    (∃ e, (action_node actEnvFailW actStateW).actions = actStateW.actions ++ [e] ∧
      e.requires_review = true) ∧
    action_requires_review (fun _ => none) "generate_reset_interview_link" (.obj []) =
      .ok false ∧
    action_requires_review (fun _ => some (.obj [("match_found", .bool true)]))
      "match_and_link_conversation_to_ticket" (.list [.obj [("text", .str "m")]]) =
      .ok true ∧
    action_requires_review (fun _ => some (.obj [("match_found", .bool false)]))
      "match_and_link_conversation_to_ticket" (.list [.obj [("text", .str "m")]]) =
      .ok false ∧
    action_requires_review (fun _ => none)
      "match_and_link_conversation_to_ticket" (.list [.obj [("text", .str "nope")]]) =
      .ok true ∧
    action_requires_review (fun _ => none) "snooze_conversation" (.obj []) = .ok true := by
  refine ⟨C7_requires_review_policy.1 actEnvFailW actStateW hopActW covDataExecW decisionW
      "boom" rfl rfl rfl (by decide) rfl,
    C7_requires_review_policy.2.1 "generate_reset_interview_link" rfl (fun _ => none) (.obj []),
    C7_requires_review_policy.2.2.1 (fun _ => some (.obj [("match_found", .bool true)]))
      [("text", .str "m")] [] "m" [("match_found", .bool true)] true rfl rfl rfl,
    C7_requires_review_policy.2.2.1 (fun _ => some (.obj [("match_found", .bool false)]))
      [("text", .str "m")] [] "m" [("match_found", .bool false)] false rfl rfl rfl,
    C7_requires_review_policy.2.2.2.1 (fun _ => none) [("text", .str "nope")] [] "nope"
      rfl rfl,
    C7_requires_review_policy.2.2.2.2 "snooze_conversation" rfl (by decide)
      (fun _ => none) (.obj [])⟩

/-- Whether the stored draft carries the route-to-human kind, as
response_node reads it (response.py lines 89-90). -/
def draftRouteToTeam (s : CState) : Bool :=
  match s.draft with
  | some dd => dd.response_type = "ROUTE_TO_TEAM"
  | none => false

/-- C8: entering the Respond stage with its own routing token, a failed
delivery escalates; a successful delivery escalates when the draft was
route-to-human; otherwise it escalates with the review-listing reason when
some logged action requires review; otherwise it proceeds to finalize.
The stored delivery record mirrors the outcome. -/
theorem C8_response_routing :
    ∀ (env : RespEnv) (s : CState), s.next_node = some "response" →
      ((deliveryError env s).isSome →
        (response_node env s).next_node = some "escalate" ∧
        ∃ rd, (response_node env s).response_delivery = some rd ∧
          rd.intercom_delivered = false) ∧
      (deliveryError env s = none → draftRouteToTeam s = true →
        (response_node env s).next_node = some "escalate") ∧
      (deliveryError env s = none → draftRouteToTeam s = false →
        s.actions.any (·.requires_review) = true →
        (response_node env s).next_node = some "escalate" ∧
        (response_node env s).escalation_reason = some (reviewReason s.actions)) ∧
      (deliveryError env s = none → draftRouteToTeam s = false →
        s.actions.any (·.requires_review) = false →
        (response_node env s).next_node = some "finalize") ∧
      (deliveryError env s = none →
        ∃ rd, (response_node env s).response_delivery = some rd ∧
          rd.intercom_delivered = true) := by
  intro env s hnx
  refine ⟨?_, ?_, ?_, ?_, ?_⟩
  · intro hde
    obtain ⟨m, hm⟩ := Option.isSome_iff_exists.mp hde
    unfold response_node responseRouting
    rw [hm]
    dsimp only
    (repeat' split) <;> simp_all
  · intro hde hrt
    unfold response_node responseRouting
    rw [hde]
    dsimp only
    unfold draftRouteToTeam at hrt
    rw [if_neg (by rw [hnx]; decide), if_neg (by simp), if_pos hrt]
  · intro hde hrt hrev
    unfold response_node responseRouting
    rw [hde]
    dsimp only
    unfold draftRouteToTeam at hrt
    rw [if_neg (by rw [hnx]; decide), if_neg (by simp), if_neg (by simp [hrt]),
      if_pos hrev]
    exact ⟨rfl, rfl⟩
  · intro hde hrt hrev
    unfold response_node responseRouting
    rw [hde]
    dsimp only
    unfold draftRouteToTeam at hrt
    rw [if_neg (by rw [hnx]; decide), if_neg (by simp), if_neg (by simp [hrt]),
      if_neg (by simp [hrev])]
  · intro hde
    unfold response_node responseRouting
    rw [hde]
    dsimp only
    (repeat' split) <;> exact ⟨_, rfl, rfl⟩

/-- `respState` with one review-requiring action logged. -/
def reviewActW : ActionData :=
  { tool_name := "match_and_link_conversation_to_ticket", success := true, error := none,
    audit_notes := "linked", requires_review := true, hop_number := 1,
    execution_status := "completed" }

/-- A deliverable state with a reviewable action in the log. -/
def reviewState : CState := { respState with actions := [reviewActW] }

/-- A route-to-human draft record. -/
def draftRTTW : DraftData :=
  { response := "A human will follow up.", response_type := "ROUTE_TO_TEAM",
    escalation_reason := some "needs human" }

/-- A deliverable state whose draft was route-to-human. -/
def rttState : CState := { respState with draft := some draftRTTW }

theorem C8_witness :
    (deliveryError ⟨.failed "down"⟩ respState).isSome ∧
    (response_node ⟨.failed "down"⟩ respState).next_node = some "escalate" ∧
    (deliveryError ⟨.delivered⟩ rttState = none ∧ draftRouteToTeam rttState = true ∧
     (response_node ⟨.delivered⟩ rttState).next_node = some "escalate") ∧
    (deliveryError ⟨.delivered⟩ reviewState = none ∧
     draftRouteToTeam reviewState = false ∧
     reviewState.actions.any (·.requires_review) = true ∧
     (response_node ⟨.delivered⟩ reviewState).next_node = some "escalate" ∧
     (response_node ⟨.delivered⟩ reviewState).escalation_reason =
       some (reviewReason reviewState.actions)) ∧
    (deliveryError ⟨.delivered⟩ respState = none ∧
     (response_node ⟨.delivered⟩ respState).next_node = some "finalize") := by
  refine ⟨rfl, ((C8_response_routing ⟨.failed "down"⟩ respState rfl).1 rfl).1,
    ⟨rfl, rfl, (C8_response_routing ⟨.delivered⟩ rttState rfl).2.1 rfl rfl⟩,
    ⟨rfl, rfl, rfl, (C8_response_routing ⟨.delivered⟩ reviewState rfl).2.2.1 rfl rfl rfl⟩,
    ⟨rfl, (C8_response_routing ⟨.delivered⟩ respState rfl).2.2.2.1 rfl rfl rfl⟩⟩

/-- A coverage judgement that escalates with a reason not mentioning
actions. -/
def respEscW : CoverageResponse :=
  { data_sufficient := false, missing_data := [], reasoning := "cannot",
    next_action := "escalate", escalation_reason := some "Unable to verify the user" }

/-- An oracle whose judgement always escalates. -/
def envEscW : CovEnv :=
  { gen := fun _ => .ok respEscW, jsValidate := fun _ _ => .ok () }

/-- The coverage record coverage_node stores for `respEscW`. -/
def covStoredW : CoverageData :=
  { coverage_response := respEscW, next_node := "escalate" }

/-- The escalate record produced on the C9 failing input. -/
def escDataW : EscalateData :=
  { escalation_reason := "Unable to verify the user", escalation_source := "unknown",
    note_added := true,
    note_content := some (build_escalation_note "Unable to verify the user") }

/-- C9: on a state whose most recent coverage analysis escalated (stored
by coverage_node itself) with no higher-priority trigger,
`_determine_escalation_source` reports "unknown", not "coverage": the
check reads the key `next_action` from the stored coverage dict, which
holds only `coverage_response` and `next_node`. -/
theorem C9_coverage_source_bug :
    (coverage_node envEscW baseState).next_node = some "escalate" ∧
    (coverage_node envEscW baseState).escalation_reason = some "Unable to verify the user" ∧
    (coverage_node envEscW baseState).hops.getLast?.map (·.coverage) = some (some covStoredW) ∧
    covStoredW.coverage_response.next_action = "escalate" ∧
    CoverageData.getStr covStoredW "next_action" = none ∧
    (coverage_node envEscW baseState).actions_taken.getD 0 = 0 ∧
    (coverage_node envEscW baseState).draft = none ∧
    (coverage_node envEscW baseState).validate = [] ∧
    (coverage_node envEscW baseState).error = none ∧
    determine_escalation_source (coverage_node envEscW baseState) = "unknown" ∧
    (escalate_node ⟨.added⟩ (coverage_node envEscW baseState)).escalate = some escDataW := by
  exact ⟨rfl, rfl, rfl, rfl, rfl, rfl, rfl, rfl, rfl, rfl, rfl⟩

/-- C10: the Action stage increments `actions_taken` and appends a record
in its failure branch exactly as on success; an `execute_action`
judgement is refused (routed to respond, hence Draft) whenever the
counter has reached the default ceiling of one; and no engine step ever
decreases the counter, so one failed action blocks action execution for
the remainder of the run. -/
theorem C10_failed_actions_count :
    (∀ (env : ActionEnv) (s : CState) (hop : HopData) (cov : CoverageData)
        (d : ActionDecision) (msg : String),
      s.hops.getLast? = some hop → hop.coverage = some cov →
      cov.coverage_response.action_decision = some d → d.action_tool_name ≠ "" →
      env.call = .error msg →
      (action_node env s).actions.length = s.actions.length + 1 ∧
      (action_node env s).actions_taken = some (s.actions_taken.getD 0 + 1) ∧
      ∃ e, (action_node env s).actions = s.actions ++ [e] ∧ e.success = false) ∧
    (∀ (resp : CoverageResponse) (hop_number max_hops actions_taken : Nat)
        (enriched : List PlannedTool) (cid : String),
      resp.next_action = "execute_action" → 1 ≤ actions_taken →
      (dispatchCoverage resp hop_number max_hops actions_taken 1 enriched cid).assign_next =
        some "respond") ∧
    (∀ (a b : GNode × CState), RunStep a b →
      a.2.actions_taken.getD 0 ≤ b.2.actions_taken.getD 0) := by
  refine ⟨?_, ?_, ?_⟩
  · intro env s hop cov d msg hl hcov hd hname hcall
    unfold action_node actionFailure
    dsimp only
    rw [hl]
    dsimp only
    rw [hcov]
    dsimp only
    rw [hd]
    dsimp only
    rw [if_neg hname, hcall]
    exact ⟨by simp, rfl, _, rfl, rfl⟩
  · intro resp hop_number max_hops actions_taken enriched cid hna _
    exact dispatchCoverage_exec_respond resp hop_number max_hops actions_taken 1
      enriched cid hna
  · intro a b hstep
    cases hstep with
    | stepInit hfr => exact Nat.le_of_eq hfr.1.2.1.symm
    | stepProcedure hfr => exact Nat.le_of_eq hfr.1.2.1.symm
    | stepPlan hfr => exact Nat.le_of_eq hfr.1.2.1.symm
    | stepGather hfr => exact Nat.le_of_eq hfr.1.2.1.symm
    | stepCoverage env => exact Nat.le_of_eq (coverage_node_frame env _).2.1.symm
    | stepAction env =>
      rcases action_node_cases env _ with ⟨_, h, _⟩ | ⟨_, h, _⟩
      · rw [h]
      · rw [h]
        simp
    | stepDraft env =>
      exact Nat.le_of_eq
        (congrArg (fun o => Option.getD o 0) (draft_node_preserves env _).2.1.symm)
    | stepValidate env =>
      exact Nat.le_of_eq
        (congrArg (fun o => Option.getD o 0) (validate_node_preserves env _).2.1.symm)
    | stepResponse env =>
      exact Nat.le_of_eq
        (congrArg (fun o => Option.getD o 0) (response_node_preserves env _).2.1.symm)
    | stepEscalate env =>
      exact Nat.le_of_eq
        (congrArg (fun o => Option.getD o 0) (escalate_node_preserves env _).2.1.symm)
    | stepFinalize hfr => exact Nat.le_of_eq hfr.1.2.1.symm

theorem C10_witness :
    ((action_node actEnvFailW actStateW).actions.length = actStateW.actions.length + 1 ∧
     (action_node actEnvFailW actStateW).actions_taken =
       some (actStateW.actions_taken.getD 0 + 1)) ∧
    (dispatchCoverage respExecW 2 3 1 1 [] "c1").assign_next = some "respond" ∧
    baseState.actions_taken.getD 0 ≤ baseState.actions_taken.getD 0 := by
  have h1 := C10_failed_actions_count.1 actEnvFailW actStateW hopActW covDataExecW
    decisionW "boom" rfl rfl rfl (by decide) rfl
  refine ⟨⟨h1.1, h1.2.1⟩,
    C10_failed_actions_count.2.1 respExecW 2 3 1 [] "c1" rfl (Nat.le_refl 1),
    C10_failed_actions_count.2.2 (.procedureStage, baseState) (.planStage, baseState)
      (RunStep.stepProcedure ⟨⟨rfl, rfl, rfl, rfl, rfl, rfl⟩, Or.inl rfl⟩)⟩

end TSAgent
